import Mathlib

/-!
# Receive-side TCP engine (`tcp_stack/tcp_in.c`)

A shallow embedding of `tcp_in.c`: the sequence/window validator, the window
update helpers, the per-state handlers and the dispatcher `tcp_process`.

Conventions of the embedding.

* Machine integers are natural numbers.  Where the C source converts to a fixed
  width (`u32 rcv_end`, `u16 old_snd_wnd`) the reduction modulo `2 ^ 32` or
  `2 ^ 16` is written out.
* A `struct tcp_sock *` is an index into the list `World.socks`; the intrusive
  list node `tsk->list` is represented by the index of the socket being a member
  of `listen_queue` or `accept_queue` of the socket that owns the queue.
* Calls into the rest of the stack (sending a segment, hashing, waking a waiter,
  closing, arming a timer, `tcp_set_state`) are recorded, in call order, in
  `World.trace`.  Calls of `log` and `tcp_copy_flags_to_str` only produce
  diagnostics and are left out.
* A dereference of a pointer that does not point to a socket makes the handler
  return `none`.
-/

namespace TcpIn

/-! ## Constants and types of the missing headers -/

/-- Modelled from the spec: the flag constant `TCP_FIN` of `tcp.h` (the header is
not among the sources).  The spec names four control flags that may be combined
in one flag set; they are taken as the bits of the TCP header. -/
def TCP_FIN : Nat := 0x01

/-- Modelled from the spec: the flag constant `TCP_SYN` of `tcp.h`. -/
def TCP_SYN : Nat := 0x02

/-- Modelled from the spec: the flag constant `TCP_RST` of `tcp.h`. -/
def TCP_RST : Nat := 0x04

/-- Modelled from the spec: the flag constant `TCP_ACK` of `tcp.h`. -/
def TCP_ACK : Nat := 0x10

/-- Modelled from the spec: the connection states of `tcp.h`, as listed in the
data model of the spec. -/
inductive tcp_state
  | TCP_CLOSED
  | TCP_LISTEN
  | TCP_SYN_SENT
  | TCP_SYN_RECV
  | TCP_ESTABLISHED
  | TCP_FIN_WAIT_1
  | TCP_FIN_WAIT_2
  | TCP_CLOSE_WAIT
  | TCP_LAST_ACK
  deriving DecidableEq

/-- Modelled from the spec: `struct tcp_cb` of `tcp.h`, the descriptor of an
incoming segment, with the fields that `tcp_in.c` reads. -/
structure tcp_cb where
  saddr : Nat
  daddr : Nat
  sport : Nat
  dport : Nat
  seq : Nat
  seq_end : Nat
  ack : Nat
  rwnd : Nat
  flags : Nat
  payload : List Nat
  pl_len : Nat
  deriving DecidableEq

/-- Modelled from the spec: `struct tcp_sock` of `tcp_sock.h`, with the fields
that `tcp_in.c` reads or writes.  `parent` is the index of the listening socket
(`none` for a null pointer); the two queues hold the indices of the children
whose `list` node is linked into them. -/
structure tcp_sock where
  sk_sip : Nat
  sk_dip : Nat
  sk_sport : Nat
  sk_dport : Nat
  state : tcp_state
  snd_una : Nat
  snd_nxt : Nat
  rcv_nxt : Nat
  snd_wnd : Nat
  rcv_wnd : Nat
  rcv_buf : List Nat
  parent : Option Nat
  listen_queue : List Nat
  accept_queue : List Nat
  deriving DecidableEq

/-- The four wait conditions of a socket. -/
inductive wait_cond
  | wait_connect
  | wait_accept
  | wait_send
  | wait_recv
  deriving DecidableEq

/-- One call into the rest of the stack. -/
inductive Event
  | send_control (tsk : Nat) (flags : Nat)
  | send_reset (cb : tcp_cb)
  | set_state (tsk : Nat) (st : tcp_state)
  | hash (tsk : Nat)
  | unhash (tsk : Nat)
  | sock_close (tsk : Nat)
  | wake_up (tsk : Nat) (c : wait_cond)
  | set_timewait_timer (tsk : Nat)
  deriving DecidableEq

/-- The sockets that exist and the calls made so far, oldest first. -/
structure World where
  socks : List tcp_sock
  trace : List Event
  deriving DecidableEq

/-- What `tcp_in.c` takes from declarations that are not among the sources:
the socket that `alloc_tcp_sock` returns, and the modulus of the integer type of
the field `rcv_wnd` (used by `tsk->rcv_wnd -= cb->pl_len`). -/
structure Env where
  fresh : tcp_sock
  wnd_mod : Nat
  deriving DecidableEq

/-! ## Access to the world -/

/-- Apply a field update to the socket `i` points to. -/
def World.modify (w : World) (i : Nat) (f : tcp_sock → tcp_sock) : World :=
  match w.socks[i]? with
  | none => w
  | some s => { w with socks := w.socks.set i (f s) }

/-- Record a call into the rest of the stack. -/
def World.emit (w : World) (e : Event) : World :=
  { w with trace := w.trace ++ [e] }

/-! ## Collaborators of `tcp_in.c` -/

/-- Modelled from the spec: `tcp_send_control_packet` (`send_control`), which
emits a segment without payload carrying the given flags. -/
def tcp_send_control_packet (w : World) (tsk : Nat) (flags : Nat) : World :=
  w.emit (Event.send_control tsk flags)

/-- Modelled from the spec: `tcp_send_reset` (`send_reset`), which emits a RST
addressed back to the sender of the segment. -/
def tcp_send_reset (w : World) (cb : tcp_cb) : World :=
  w.emit (Event.send_reset cb)

/-- Modelled from the spec: `tcp_set_state`, the only mutator of `state`. -/
def tcp_set_state (w : World) (tsk : Nat) (st : tcp_state) : World :=
  (w.modify tsk fun s => { s with state := st }).emit (Event.set_state tsk st)

/-- Modelled from the spec: `tcp_hash` (`hash`), which indexes the socket by its
4-tuple.  Its result only selects a log message in `tcp_state_listen`. -/
def tcp_hash (w : World) (tsk : Nat) : World :=
  w.emit (Event.hash tsk)

/-- Modelled from the spec: `tcp_unhash` (`unhash`), which removes the socket
from the index. -/
def tcp_unhash (w : World) (tsk : Nat) : World :=
  w.emit (Event.unhash tsk)

/-- Modelled from the spec: `tcp_sock_close`, the signal to the owner of the
socket to tear it down. -/
def tcp_sock_close (w : World) (tsk : Nat) : World :=
  w.emit (Event.sock_close tsk)

/-- Modelled from the spec: `wake_up` (`wake`), a notification of the callers
blocked on a wait condition of the socket. -/
def wake_up (w : World) (tsk : Nat) (c : wait_cond) : World :=
  w.emit (Event.wake_up tsk c)

/-- Modelled from the spec: `tcp_set_timewait_timer` (`arm_time_wait_timer`). -/
def tcp_set_timewait_timer (w : World) (tsk : Nat) : World :=
  w.emit (Event.set_timewait_timer tsk)

/-- Modelled from the spec: `alloc_tcp_sock` (`allocate_connection`), which
returns a fresh socket with default fields; the result is the new world and the
pointer to the new socket. -/
def alloc_tcp_sock (env : Env) (w : World) : World × Nat :=
  ({ w with socks := w.socks ++ [env.fresh] }, w.socks.length)

/-- Modelled from the spec: `write_ring_buffer` (`append`), which appends
`len` bytes to the receive buffer. -/
def write_ring_buffer (buf : List Nat) (payload : List Nat) (len : Nat) : List Nat :=
  buf ++ payload.take len

/-- Modelled from the spec: `list_add_tail` on the listen queue of `owner`. -/
def list_add_tail_listen (w : World) (entry owner : Nat) : World :=
  w.modify owner fun s => { s with listen_queue := s.listen_queue ++ [entry] }

/-- Modelled from the spec: `list_delete_entry`, which unlinks the list node of
a socket from the queue it is linked into. -/
def list_delete_entry (w : World) (entry : Nat) : World :=
  { w with socks := w.socks.map fun s =>
      { s with listen_queue := s.listen_queue.filter (fun x => x != entry),
               accept_queue := s.accept_queue.filter (fun x => x != entry) } }

/-- Modelled from the spec: `tcp_sock_accept_enqueue`, which inserts the socket
into the accept queue of its parent. -/
def tcp_sock_accept_enqueue (w : World) (tsk : Nat) : Option World :=
  match w.socks[tsk]? with
  | none => none
  | some s =>
    match s.parent with
    | none => none
    | some p =>
      match w.socks[p]? with
      | none => none
      | some _ =>
        some (w.modify p fun ps => { ps with accept_queue := ps.accept_queue ++ [tsk] })

/-! ## `tcp_in.c` -/

/-- The macro `max(x,y)`. -/
def c_max (x y : Nat) : Nat := if x > y then x else y

/-- Subtraction in an unsigned type of modulus `m`. -/
def sub_mod (m a b : Nat) : Nat := (a + (m - b % m)) % m

/-- Handler of `TCP_LISTEN`. -/
def tcp_state_listen (env : Env) (w : World) (tsk : Nat) (cb : tcp_cb) : Option World :=
  match w.socks[tsk]? with
  | none => none
  | some _ =>
    let (w, c_tsk) := alloc_tcp_sock env w
    let w := w.modify c_tsk fun c =>
      { c with sk_sip := cb.daddr, sk_dip := cb.saddr, sk_sport := cb.dport, sk_dport := cb.sport }
    let w := w.modify c_tsk fun c => { c with rcv_nxt := cb.seq_end }
    let w := w.modify c_tsk fun c => { c with parent := some tsk }
    let w := list_add_tail_listen w c_tsk tsk
    let w := tcp_send_control_packet w c_tsk (TCP_SYN ||| TCP_ACK)
    let w := tcp_set_state w c_tsk tcp_state.TCP_SYN_RECV
    some (tcp_hash w c_tsk)

/-- Handler of `TCP_CLOSED`. -/
def tcp_state_closed (w : World) (_tsk : Nat) (cb : tcp_cb) : World :=
  tcp_send_reset w cb

/-- Handler of `TCP_SYN_SENT`. -/
def tcp_state_syn_sent (w : World) (tsk : Nat) (cb : tcp_cb) : World :=
  if cb.flags ≠ (TCP_SYN ||| TCP_ACK) then
    tcp_send_reset w cb
  else
    let w := w.modify tsk fun s => { s with rcv_nxt := cb.seq_end }
    let w := tcp_send_control_packet w tsk TCP_ACK
    let w := tcp_set_state w tsk tcp_state.TCP_ESTABLISHED
    wake_up w tsk wait_cond.wait_connect

/-- Update of `snd_wnd`; the old value is read into a `u16`. -/
def tcp_update_window (w : World) (tsk : Nat) (cb : tcp_cb) : World :=
  match w.socks[tsk]? with
  | none => w
  | some s =>
    let old_snd_wnd := s.snd_wnd % 2 ^ 16
    let w := w.modify tsk fun s => { s with snd_wnd := cb.rwnd }
    if old_snd_wnd = 0 then wake_up w tsk wait_cond.wait_send else w

/-- Update of `snd_wnd` when `cb->ack` is between `snd_una` and `snd_nxt`. -/
def tcp_update_window_safe (w : World) (tsk : Nat) (cb : tcp_cb) : World :=
  match w.socks[tsk]? with
  | none => w
  | some s =>
    if s.snd_una ≤ cb.ack ∧ cb.ack ≤ s.snd_nxt then tcp_update_window w tsk cb else w

/-- Handler of an acknowledgement in `TCP_SYN_RECV`. -/
def tcp_state_syn_recv (w : World) (tsk : Nat) (_cb : tcp_cb) : Option World :=
  match w.socks[tsk]? with
  | none => none
  | some s =>
    let w := list_delete_entry w tsk
    match tcp_sock_accept_enqueue w tsk with
    | none => none
    | some w =>
      let w := tcp_set_state w tsk tcp_state.TCP_ESTABLISHED
      match s.parent with
      | none => none
      | some p => some (wake_up w p wait_cond.wait_accept)

/-- The sequence/window validator; `rcv_end` is a `u32`. -/
def is_tcp_seq_valid (tsk : tcp_sock) (cb : tcp_cb) : Nat :=
  let rcv_end := (tsk.rcv_nxt + c_max tsk.rcv_wnd 1) % 2 ^ 32
  if cb.seq < rcv_end ∧ tsk.rcv_nxt ≤ cb.seq_end then 1 else 0

/-- Delivery of the payload into `rcv_buf`. -/
def tcp_recv_data (w : World) (tsk : Nat) (cb : tcp_cb) : World :=
  let w := w.modify tsk fun s =>
    { s with rcv_buf := write_ring_buffer s.rcv_buf cb.payload cb.pl_len }
  wake_up w tsk wait_cond.wait_recv

/-- The part of `tcp_process` after the state-specific acknowledgement handling:
window accounting, data delivery, FIN handling and the final ACK. -/
def tcp_process_data (env : Env) (w : World) (tsk : Nat) (cb : tcp_cb) : World :=
  let w := w.modify tsk fun s => { s with rcv_wnd := sub_mod env.wnd_mod s.rcv_wnd cb.pl_len }
  let w := tcp_update_window_safe w tsk cb
  let w := if cb.pl_len > 0 then tcp_recv_data w tsk cb else w
  if cb.flags &&& TCP_FIN ≠ 0 then
    let w := tcp_set_state w tsk tcp_state.TCP_CLOSE_WAIT
    let w := w.modify tsk fun s => { s with rcv_nxt := cb.seq_end }
    let w := tcp_send_control_packet w tsk TCP_ACK
    let w := tcp_send_control_packet w tsk (TCP_FIN ||| TCP_ACK)
    tcp_set_state w tsk tcp_state.TCP_LAST_ACK
  else if cb.flags ≠ TCP_ACK then
    let w := w.modify tsk fun s => { s with rcv_nxt := cb.seq_end }
    tcp_send_control_packet w tsk TCP_ACK
  else
    w

/-- The part of `tcp_process` after the `switch`: the shared pipeline of the
states other than `TCP_CLOSED`, `TCP_LISTEN` and `TCP_SYN_SENT`. -/
def tcp_process_shared (env : Env) (w : World) (tsk : Nat) (s : tcp_sock) (cb : tcp_cb) :
    Option World :=
  if is_tcp_seq_valid s cb = 0 then
    some w
  else if cb.flags &&& TCP_RST ≠ 0 then
    some (tcp_sock_close w tsk)
  else if cb.flags &&& TCP_SYN ≠ 0 then
    some (tcp_sock_close w tsk)
  else if cb.flags &&& TCP_ACK = 0 ∧ cb.flags &&& TCP_FIN = 0 then
    some w
  else if s.state = tcp_state.TCP_SYN_RECV then
    tcp_state_syn_recv w tsk cb
  else if s.state = tcp_state.TCP_FIN_WAIT_1 then
    some (tcp_set_state w tsk tcp_state.TCP_FIN_WAIT_2)
  else if s.state = tcp_state.TCP_LAST_ACK then
    some (tcp_unhash (tcp_set_state w tsk tcp_state.TCP_CLOSED) tsk)
  else if s.state = tcp_state.TCP_FIN_WAIT_2 then
    if cb.flags ≠ (TCP_FIN ||| TCP_ACK) then
      some w
    else
      let w := w.modify tsk fun s => { s with rcv_nxt := cb.seq_end }
      let w := tcp_send_control_packet w tsk TCP_ACK
      some (tcp_set_timewait_timer w tsk)
  else
    some (tcp_process_data env w tsk cb)

/-- The dispatcher. -/
def tcp_process (env : Env) (w : World) (tsk : Nat) (cb : tcp_cb) : Option World :=
  match w.socks[tsk]? with
  | none => none
  | some s =>
    match s.state with
    | tcp_state.TCP_CLOSED => some (tcp_state_closed w tsk cb)
    | tcp_state.TCP_LISTEN => tcp_state_listen env w tsk cb
    | tcp_state.TCP_SYN_SENT => some (tcp_state_syn_sent w tsk cb)
    | _ => tcp_process_shared env w tsk s cb

/-! ## Fixtures and specification-side definitions -/

/-- A socket with every counter zero, empty queues and no parent. -/
def sock_zero : tcp_sock :=
  { sk_sip := 0, sk_dip := 0, sk_sport := 0, sk_dport := 0,
    state := tcp_state.TCP_CLOSED,
    snd_una := 0, snd_nxt := 0, rcv_nxt := 0, snd_wnd := 0, rcv_wnd := 0,
    rcv_buf := [], parent := none, listen_queue := [], accept_queue := [] }

/-- A segment descriptor with every field zero and no payload. -/
def cb_zero : tcp_cb :=
  { saddr := 0, daddr := 0, sport := 0, dport := 0, seq := 0, seq_end := 0,
    ack := 0, rwnd := 0, flags := 0, payload := [], pl_len := 0 }

/-- An environment whose fresh socket advertises a window of 65535 bytes and
whose window type is 16 bits wide. -/
def env_u16 : Env :=
  { fresh := { sock_zero with rcv_wnd := 65535 }, wnd_mod := 65536 }

/-- The world with a single socket and an empty trace. -/
def world_one (s : tcp_sock) : World :=
  { socks := [s], trace := [] }

/-- An ESTABLISHED socket that expects byte 100 and advertises 1000 bytes. -/
def sock_est : tcp_sock :=
  { sock_zero with state := tcp_state.TCP_ESTABLISHED, rcv_nxt := 100, rcv_wnd := 1000,
                   snd_wnd := 500 }

/-- A segment with flags ACK|PSH that carries the ten bytes 100..109. -/
def cb_data : tcp_cb :=
  { cb_zero with seq := 100, seq_end := 110, flags := TCP_ACK ||| 8, rwnd := 500,
                 payload := [1, 2, 3, 4, 5, 6, 7, 8, 9, 10], pl_len := 10 }

/-- The child that the handler of `TCP_LISTEN` leaves behind for the listener
`tsk` and the segment `cb`: the fresh socket with the 4-tuple of the segment
swapped, `rcv_nxt` at the end of the segment, the listener as parent and the
state `TCP_SYN_RECV`. -/
def listen_child (env : Env) (tsk : Nat) (cb : tcp_cb) : tcp_sock :=
  { env.fresh with
    sk_sip := cb.daddr, sk_dip := cb.saddr, sk_sport := cb.dport, sk_dport := cb.sport,
    rcv_nxt := cb.seq_end, parent := some tsk, state := tcp_state.TCP_SYN_RECV }

/-- The connection moved by `k` in the 32-bit sequence space. -/
def shift_sock (k : Nat) (tsk : tcp_sock) : tcp_sock :=
  { tsk with rcv_nxt := (tsk.rcv_nxt + k) % 2 ^ 32 }

/-- The segment moved by `k` in the 32-bit sequence space. -/
def shift_cb (k : Nat) (cb : tcp_cb) : tcp_cb :=
  { cb with seq := (cb.seq + k) % 2 ^ 32, seq_end := (cb.seq_end + k) % 2 ^ 32 }

/-- The socket after the window accounting, the send-window update and the data
delivery of `tcp_process`, for the socket `s` before them. -/
def data_sock (env : Env) (s : tcp_sock) (cb : tcp_cb) : tcp_sock :=
  { s with
    rcv_wnd := sub_mod env.wnd_mod s.rcv_wnd cb.pl_len,
    snd_wnd := if s.snd_una ≤ cb.ack ∧ cb.ack ≤ s.snd_nxt then cb.rwnd else s.snd_wnd,
    rcv_buf :=
      if cb.pl_len > 0 then write_ring_buffer s.rcv_buf cb.payload cb.pl_len else s.rcv_buf }

/-- The calls made by the send-window update and the data delivery of
`tcp_process`: at most a wake-up of `wait_send`, then at most a wake-up of
`wait_recv`. -/
def data_events (tsk : Nat) (s : tcp_sock) (cb : tcp_cb) : List Event :=
  (if (s.snd_una ≤ cb.ack ∧ cb.ack ≤ s.snd_nxt) ∧ s.snd_wnd % 2 ^ 16 = 0
    then [Event.wake_up tsk wait_cond.wait_send] else [])
  ++ (if cb.pl_len > 0 then [Event.wake_up tsk wait_cond.wait_recv] else [])

/-- The calls that emit a segment. -/
def Event.is_segment : Event → Bool
  | Event.send_control _ _ => true
  | Event.send_reset _ => true
  | _ => false

/-! ## The sequence/window validator -/

theorem c_max_eq_max (x y : Nat) : c_max x y = max x y := by
  unfold c_max
  split <;> omega

/-- The validator with the macro `max` replaced by the maximum of two numbers. -/
theorem is_tcp_seq_valid_eq (tsk : tcp_sock) (cb : tcp_cb) :
    is_tcp_seq_valid tsk cb =
      if cb.seq < (tsk.rcv_nxt + max tsk.rcv_wnd 1) % 2 ^ 32 ∧ tsk.rcv_nxt ≤ cb.seq_end
      then 1 else 0 := by
  simp only [is_tcp_seq_valid, c_max_eq_max]

/-- C1: `is_tcp_seq_valid` returns 1 exactly when `seq < rcv_end` and
`rcv_nxt ≤ seq_end`, where `rcv_end = (rcv_nxt + max rcv_wnd 1) mod 2^32`, and
returns 0 otherwise. -/
theorem is_tcp_seq_valid_spec (tsk : tcp_sock) (cb : tcp_cb) :
    is_tcp_seq_valid tsk cb =
      if cb.seq < (tsk.rcv_nxt + max tsk.rcv_wnd 1) % 2 ^ 32 ∧ tsk.rcv_nxt ≤ cb.seq_end
      then 1 else 0 := by
  exact is_tcp_seq_valid_eq tsk cb

/-- C2, refuted as stated: with `rcv_nxt = 2^32 - 1` and `rcv_wnd = 0` the probe
with `seq = rcv_nxt` and `seq_end = rcv_nxt + 1` (which is 0 in 32 bits) is
dropped. -/
theorem zero_window_probe_dropped_at_top :
    is_tcp_seq_valid { sock_zero with rcv_nxt := 4294967295, rcv_wnd := 0 }
      { cb_zero with seq := 4294967295, seq_end := (4294967295 + 1) % 2 ^ 32 } = 0 := by
  decide

/-- C2, amended: when `rcv_wnd = 0` and `rcv_nxt + 1` does not wrap, a segment
with `seq = rcv_nxt`, `seq_end = rcv_nxt + 1` is admitted and a segment with
`seq = rcv_nxt + 1` is dropped. -/
theorem zero_window_probe (tsk : tcp_sock) (probe beyond : tcp_cb)
    (hw : tsk.rcv_wnd = 0) (hn : tsk.rcv_nxt + 1 < 2 ^ 32)
    (hp : probe.seq = tsk.rcv_nxt) (hpe : probe.seq_end = tsk.rcv_nxt + 1)
    (hb : beyond.seq = tsk.rcv_nxt + 1) :
    is_tcp_seq_valid tsk probe = 1 ∧ is_tcp_seq_valid tsk beyond = 0 := by
  have hm : (tsk.rcv_nxt + 1) % 4294967296 = tsk.rcv_nxt + 1 :=
    Nat.mod_eq_of_lt (by omega)
  constructor
  · simp [is_tcp_seq_valid, c_max, hw, hp, hpe, hm]
  · simp [is_tcp_seq_valid, c_max, hw, hb, hm]

theorem zero_window_probe_witness :
    is_tcp_seq_valid { sock_zero with rcv_nxt := 100, rcv_wnd := 0 }
        { cb_zero with seq := 100, seq_end := 101 } = 1 ∧
      is_tcp_seq_valid { sock_zero with rcv_nxt := 100, rcv_wnd := 0 }
        { cb_zero with seq := 101 } = 0 :=
  zero_window_probe { sock_zero with rcv_nxt := 100, rcv_wnd := 0 }
    { cb_zero with seq := 100, seq_end := 101 } { cb_zero with seq := 101 }
    rfl (by decide) rfl rfl rfl

/-- C3, refuted as stated: the segment `seq = 100, seq_end = 101` is admitted at
`rcv_nxt = 100, rcv_wnd = 0`, and after moving connection and segment by
`k = 2^32 - 101` (modulo `2^32`) it is dropped. -/
theorem seq_valid_not_shift_invariant :
    is_tcp_seq_valid { sock_zero with rcv_nxt := 100 }
        { cb_zero with seq := 100, seq_end := 101 } = 1 ∧
      is_tcp_seq_valid (shift_sock 4294967195 { sock_zero with rcv_nxt := 100 })
        (shift_cb 4294967195 { cb_zero with seq := 100, seq_end := 101 }) = 0 := by
  decide

/-- C3, amended: moving `rcv_nxt`, `seq` and `seq_end` by an offset `k` leaves
the answer of `is_tcp_seq_valid` unchanged when none of `rcv_nxt + max rcv_wnd 1`,
`seq`, `seq_end` passes `2^32` on adding `k`. -/
theorem seq_valid_shift_no_wrap (tsk : tcp_sock) (cb : tcp_cb) (k : Nat)
    (hr : tsk.rcv_nxt + max tsk.rcv_wnd 1 + k < 2 ^ 32)
    (hs : cb.seq + k < 2 ^ 32) (he : cb.seq_end + k < 2 ^ 32) :
    is_tcp_seq_valid (shift_sock k tsk) (shift_cb k cb) = is_tcp_seq_valid tsk cb := by
  have h1 : (tsk.rcv_nxt + k) % 2 ^ 32 = tsk.rcv_nxt + k := Nat.mod_eq_of_lt (by omega)
  have h2 : (cb.seq + k) % 2 ^ 32 = cb.seq + k := Nat.mod_eq_of_lt hs
  have h3 : (cb.seq_end + k) % 2 ^ 32 = cb.seq_end + k := Nat.mod_eq_of_lt he
  have h4 : (tsk.rcv_nxt + k + max tsk.rcv_wnd 1) % 2 ^ 32
      = tsk.rcv_nxt + k + max tsk.rcv_wnd 1 := Nat.mod_eq_of_lt (by omega)
  have h5 : (tsk.rcv_nxt + max tsk.rcv_wnd 1) % 2 ^ 32
      = tsk.rcv_nxt + max tsk.rcv_wnd 1 := Nat.mod_eq_of_lt (by omega)
  simp only [is_tcp_seq_valid_eq, shift_sock, shift_cb, h1, h2, h3, h4, h5]
  congr 1
  apply propext
  constructor <;> intro h <;> omega

theorem seq_valid_shift_no_wrap_witness :
    is_tcp_seq_valid (shift_sock 1000 { sock_zero with rcv_nxt := 100, rcv_wnd := 10 })
        (shift_cb 1000 { cb_zero with seq := 105, seq_end := 108 })
      = is_tcp_seq_valid { sock_zero with rcv_nxt := 100, rcv_wnd := 10 }
        { cb_zero with seq := 105, seq_end := 108 } :=
  seq_valid_shift_no_wrap { sock_zero with rcv_nxt := 100, rcv_wnd := 10 }
    { cb_zero with seq := 105, seq_end := 108 } 1000 (by decide) (by decide) (by decide)

/-! ## Lemmas on the world -/

theorem World.modify_of_get {w : World} {i : Nat} {s : tcp_sock} (f : tcp_sock → tcp_sock)
    (h : w.socks[i]? = some s) :
    w.modify i f = { w with socks := w.socks.set i (f s) } := by
  simp [World.modify, h]

theorem World.modify_of_none {w : World} {i : Nat} (f : tcp_sock → tcp_sock)
    (h : w.socks[i]? = none) : w.modify i f = w := by
  simp [World.modify, h]

@[simp] theorem World.trace_modify (w : World) (i : Nat) (f : tcp_sock → tcp_sock) :
    (w.modify i f).trace = w.trace := by
  unfold World.modify
  split <;> rfl

@[simp] theorem World.trace_emit (w : World) (e : Event) :
    (w.emit e).trace = w.trace ++ [e] := rfl

@[simp] theorem World.socks_emit (w : World) (e : Event) :
    (w.emit e).socks = w.socks := rfl

theorem World.get_modify (w : World) (i j : Nat) (f : tcp_sock → tcp_sock) :
    (w.modify i f).socks[j]? = if i = j then (w.socks[j]?).map f else w.socks[j]? := by
  unfold World.modify
  by_cases hij : i = j
  · subst hij
    cases h : w.socks[i]? with
    | none => simp [h]
    | some s =>
      have hi : i < w.socks.length := (List.getElem?_eq_some.mp h).1
      simp [List.getElem?_set, hi, h]
  · cases h : w.socks[i]? with
    | none => simp [hij]
    | some s => simp [List.getElem?_set, hij]

theorem World.get_modify_self {w : World} {i : Nat} {s : tcp_sock} (f : tcp_sock → tcp_sock)
    (h : w.socks[i]? = some s) : (w.modify i f).socks[i]? = some (f s) := by
  simp [World.get_modify, h]

theorem World.modify_emit (w : World) (e : Event) (i : Nat) (f : tcp_sock → tcp_sock) :
    (w.emit e).modify i f = (w.modify i f).emit e := by
  unfold World.modify World.emit
  cases h : w.socks[i]? <;> simp [h]

theorem World.modify_modify (w : World) (i : Nat) (f g : tcp_sock → tcp_sock) :
    (w.modify i f).modify i g = w.modify i (fun s => g (f s)) := by
  cases h : w.socks[i]? with
  | none => simp [World.modify_of_none, h]
  | some s =>
    rw [World.modify_of_get g (World.get_modify_self f h), World.modify_of_get f h,
      World.modify_of_get _ h]
    simp

/-! ## The dispatcher: rejected segments -/

/-- C4: in a state other than CLOSED, LISTEN and SYN_SENT, a segment that
`is_tcp_seq_valid` rejects leaves the whole world as it was: every field of the
connection is unchanged and no call is added to the trace. -/
theorem tcp_process_invalid_seq_drop (env : Env) (w : World) (tsk : Nat) (s : tcp_sock)
    (cb : tcp_cb) (h : w.socks[tsk]? = some s)
    (h1 : s.state ≠ tcp_state.TCP_CLOSED) (h2 : s.state ≠ tcp_state.TCP_LISTEN)
    (h3 : s.state ≠ tcp_state.TCP_SYN_SENT) (hv : is_tcp_seq_valid s cb = 0) :
    tcp_process env w tsk cb = some w := by
  unfold tcp_process
  rw [h]
  simp only
  simp [tcp_process_shared, hv]

theorem tcp_process_invalid_seq_drop_witness :
    tcp_process env_u16
        (world_one { sock_zero with state := tcp_state.TCP_ESTABLISHED, rcv_nxt := 100,
                                    rcv_wnd := 10 })
        0 { cb_zero with seq := 200, seq_end := 210, flags := TCP_ACK }
      = some (world_one { sock_zero with state := tcp_state.TCP_ESTABLISHED, rcv_nxt := 100,
                                         rcv_wnd := 10 }) :=
  tcp_process_invalid_seq_drop env_u16 _ 0
    { sock_zero with state := tcp_state.TCP_ESTABLISHED, rcv_nxt := 100, rcv_wnd := 10 }
    { cb_zero with seq := 200, seq_end := 210, flags := TCP_ACK }
    rfl (by decide) (by decide) (by decide) (by decide)

/-! ## Window update -/

/-- C5: `tcp_update_window_safe` sets `snd_wnd` to the segment's `rwnd` when
`snd_una ≤ ack ≤ snd_nxt` and leaves it (and every other field) unchanged
otherwise. -/
theorem tcp_update_window_safe_snd_wnd (w : World) (tsk : Nat) (s : tcp_sock) (cb : tcp_cb)
    (h : w.socks[tsk]? = some s) :
    (tcp_update_window_safe w tsk cb).socks[tsk]? =
      some { s with snd_wnd :=
        if s.snd_una ≤ cb.ack ∧ cb.ack ≤ s.snd_nxt then cb.rwnd else s.snd_wnd } := by
  unfold tcp_update_window_safe
  rw [h]
  simp only
  split
  · unfold tcp_update_window
    rw [h]
    simp only
    split <;> simp [wake_up, World.get_modify_self _ h]
  · simp [h]

theorem tcp_update_window_safe_snd_wnd_witness :
    (tcp_update_window_safe
        (world_one { sock_zero with snd_una := 50, snd_nxt := 100, snd_wnd := 7 }) 0
        { cb_zero with ack := 30, rwnd := 9 }).socks[0]?
      = some { sock_zero with snd_una := 50, snd_nxt := 100, snd_wnd := 7 } ∧
    (tcp_update_window_safe
        (world_one { sock_zero with snd_una := 50, snd_nxt := 100, snd_wnd := 7 }) 0
        { cb_zero with ack := 75, rwnd := 9 }).socks[0]?
      = some { sock_zero with snd_una := 50, snd_nxt := 100, snd_wnd := 9 } :=
  ⟨tcp_update_window_safe_snd_wnd
      (world_one { sock_zero with snd_una := 50, snd_nxt := 100, snd_wnd := 7 }) 0
      { sock_zero with snd_una := 50, snd_nxt := 100, snd_wnd := 7 }
      { cb_zero with ack := 30, rwnd := 9 } rfl,
   tcp_update_window_safe_snd_wnd
      (world_one { sock_zero with snd_una := 50, snd_nxt := 100, snd_wnd := 7 }) 0
      { sock_zero with snd_una := 50, snd_nxt := 100, snd_wnd := 7 }
      { cb_zero with ack := 75, rwnd := 9 } rfl⟩

theorem World.modify_last (l : List tcp_sock) (a : tcp_sock) (t : List Event) (n : Nat)
    (f : tcp_sock → tcp_sock) (hn : n = l.length) :
    World.modify { socks := l ++ [a], trace := t } n f = { socks := l ++ [f a], trace := t } := by
  subst hn
  have hg : (l ++ [a])[l.length]? = some a := List.getElem?_concat_length l a
  rw [World.modify_of_get f hg]
  simp

theorem World.modify_init (l : List tcp_sock) (a s : tcp_sock) (t : List Event) (i : Nat)
    (f : tcp_sock → tcp_sock) (h : l[i]? = some s) :
    World.modify { socks := l ++ [a], trace := t } i f
      = { socks := l.set i (f s) ++ [a], trace := t } := by
  have hi : i < l.length := (List.getElem?_eq_some.mp h).1
  have hg : (l ++ [a])[i]? = some s := by
    rw [List.getElem?_append_left hi]; exact h
  rw [World.modify_of_get f hg]
  simp [List.set_append_left, hi]

/-- The world that the handler of `TCP_LISTEN` returns. -/
theorem tcp_state_listen_eq (env : Env) (w : World) (tsk : Nat) (s : tcp_sock) (cb : tcp_cb)
    (h : w.socks[tsk]? = some s) :
    tcp_state_listen env w tsk cb = some
      { socks := w.socks.set tsk { s with listen_queue := s.listen_queue ++ [w.socks.length] }
                  ++ [listen_child env tsk cb],
        trace := w.trace ++ [Event.send_control w.socks.length (TCP_SYN ||| TCP_ACK),
                             Event.set_state w.socks.length tcp_state.TCP_SYN_RECV,
                             Event.hash w.socks.length] } := by
  unfold tcp_state_listen alloc_tcp_sock
  rw [h]
  simp only [list_add_tail_listen, tcp_send_control_packet, tcp_set_state, tcp_hash,
    World.emit]
  rw [World.modify_last _ _ _ _ _ rfl, World.modify_last _ _ _ _ _ rfl,
    World.modify_last _ _ _ _ _ rfl, World.modify_init _ _ s _ _ _ h,
    World.modify_last _ _ _ _ _ (by simp)]
  simp [listen_child]

/-- A socket in a state other than CLOSED, LISTEN and SYN_SENT goes through the
shared pipeline. -/
theorem tcp_process_eq_shared (env : Env) (w : World) (tsk : Nat) (s : tcp_sock) (cb : tcp_cb)
    (h : w.socks[tsk]? = some s)
    (h1 : s.state ≠ tcp_state.TCP_CLOSED) (h2 : s.state ≠ tcp_state.TCP_LISTEN)
    (h3 : s.state ≠ tcp_state.TCP_SYN_SENT) :
    tcp_process env w tsk cb = tcp_process_shared env w tsk s cb := by
  unfold tcp_process
  rw [h]
  simp only

/-- A socket in LISTEN is handed to `tcp_state_listen`. -/
theorem tcp_process_eq_listen (env : Env) (w : World) (tsk : Nat) (s : tcp_sock) (cb : tcp_cb)
    (h : w.socks[tsk]? = some s) (hst : s.state = tcp_state.TCP_LISTEN) :
    tcp_process env w tsk cb = tcp_state_listen env w tsk cb := by
  unfold tcp_process
  rw [h]
  simp only [hst]

/-- C7: a LISTEN socket that receives a SYN with `seq = S` and `seq_end = S + 1`
gets a new child at the end of the socket list: the fresh socket with the
4-tuple of the segment swapped, `rcv_nxt = S + 1`, the listener as parent and
state SYN_RECV; the child is appended to the listener's `listen_queue`, the
listener is otherwise unchanged (its state stays LISTEN), and the calls made are
SYN+ACK on the child, the state change of the child and `tcp_hash` of the
child. -/
theorem tcp_process_listen_syn (env : Env) (w : World) (tsk : Nat) (s : tcp_sock) (cb : tcp_cb)
    (h : w.socks[tsk]? = some s) (hst : s.state = tcp_state.TCP_LISTEN)
    (_hf : cb.flags = TCP_SYN) (he : cb.seq_end = (cb.seq + 1) % 2 ^ 32) :
    tcp_process env w tsk cb = some
      { socks :=
          w.socks.set tsk { s with listen_queue := s.listen_queue ++ [w.socks.length] }
            ++ [{ env.fresh with
                  sk_sip := cb.daddr, sk_dip := cb.saddr,
                  sk_sport := cb.dport, sk_dport := cb.sport,
                  rcv_nxt := (cb.seq + 1) % 2 ^ 32, parent := some tsk,
                  state := tcp_state.TCP_SYN_RECV }],
        trace := w.trace ++ [Event.send_control w.socks.length (TCP_SYN ||| TCP_ACK),
                             Event.set_state w.socks.length tcp_state.TCP_SYN_RECV,
                             Event.hash w.socks.length] } := by
  rw [tcp_process_eq_listen env w tsk s cb h hst, tcp_state_listen_eq env w tsk s cb h,
    listen_child, he]

theorem tcp_process_listen_syn_witness :
    tcp_process env_u16 (world_one { sock_zero with state := tcp_state.TCP_LISTEN }) 0
        { cb_zero with saddr := 7, daddr := 8, sport := 1234, dport := 80,
                       seq := 1000, seq_end := 1001, flags := TCP_SYN }
      = some
        { socks := [{ sock_zero with state := tcp_state.TCP_LISTEN, listen_queue := [1] },
                    { sock_zero with sk_sip := 8, sk_dip := 7, sk_sport := 80, sk_dport := 1234,
                                     rcv_nxt := 1001, rcv_wnd := 65535, parent := some 0,
                                     state := tcp_state.TCP_SYN_RECV }],
          trace := [Event.send_control 1 (TCP_SYN ||| TCP_ACK),
                    Event.set_state 1 tcp_state.TCP_SYN_RECV, Event.hash 1] } :=
  tcp_process_listen_syn env_u16 (world_one { sock_zero with state := tcp_state.TCP_LISTEN }) 0
    { sock_zero with state := tcp_state.TCP_LISTEN }
    { cb_zero with saddr := 7, daddr := 8, sport := 1234, dport := 80,
                   seq := 1000, seq_end := 1001, flags := TCP_SYN }
    rfl rfl rfl (by decide)

/-- The world that the handler of `TCP_SYN_RECV` returns for a child whose
parent exists. -/
theorem tcp_state_syn_recv_eq (w : World) (tsk p : Nat) (s ps : tcp_sock) (cb : tcp_cb)
    (h : w.socks[tsk]? = some s) (hp : s.parent = some p) (hps : w.socks[p]? = some ps) :
    tcp_state_syn_recv w tsk cb = some
      (wake_up
        (tcp_set_state
          ((list_delete_entry w tsk).modify p
            fun q => { q with accept_queue := q.accept_queue ++ [tsk] })
          tsk tcp_state.TCP_ESTABLISHED)
        p wait_cond.wait_accept) := by
  unfold tcp_state_syn_recv
  rw [h]
  simp only
  have hd : (list_delete_entry w tsk).socks[tsk]? = some
      { s with listen_queue := s.listen_queue.filter (fun x => x != tsk),
               accept_queue := s.accept_queue.filter (fun x => x != tsk) } := by
    simp [list_delete_entry, h]
  have hdp : (list_delete_entry w tsk).socks[p]? = some
      { ps with listen_queue := ps.listen_queue.filter (fun x => x != tsk),
                accept_queue := ps.accept_queue.filter (fun x => x != tsk) } := by
    simp [list_delete_entry, hps]
  have he : tcp_sock_accept_enqueue (list_delete_entry w tsk) tsk = some
      ((list_delete_entry w tsk).modify p
        fun q => { q with accept_queue := q.accept_queue ++ [tsk] }) := by
    unfold tcp_sock_accept_enqueue
    rw [hd]
    simp only [hp]
    rw [hdp]
  rw [he]
  simp only [hp]

/-- C8, refuted as stated: with `S = 2^32 - 2` and a default receive window of
65535, the child spawned from the SYN has `rcv_nxt = 2^32 - 1`; the bare ACK with
`seq = seq_end = S + 1` is rejected by the validator, so the child stays in
SYN_RECV and in the `listen_queue`, the `accept_queue` stays empty and
`wait_accept` is not woken. -/
theorem handshake_ack_dropped_near_wrap :
    (tcp_process env_u16 (world_one { sock_zero with state := tcp_state.TCP_LISTEN }) 0
        { cb_zero with seq := 4294967294, seq_end := 4294967295, flags := TCP_SYN }).bind
      (fun w1 => tcp_process env_u16 w1 1
        { cb_zero with seq := 4294967295, seq_end := 4294967295, flags := TCP_ACK })
      = some
        { socks := [{ sock_zero with state := tcp_state.TCP_LISTEN, listen_queue := [1] },
                    { sock_zero with rcv_nxt := 4294967295, rcv_wnd := 65535, parent := some 0,
                                     state := tcp_state.TCP_SYN_RECV }],
          trace := [Event.send_control 1 (TCP_SYN ||| TCP_ACK),
                    Event.set_state 1 tcp_state.TCP_SYN_RECV, Event.hash 1] } := by
  decide

/-- C8, amended: when `S + 1` (modulo `2^32`) plus `max rcv_wnd 1` of the fresh
socket stays below `2^32`, then after a LISTEN socket has spawned a child from a
SYN with `seq = S`, `tcp_process` on the child with a bare ACK
(`seq = seq_end = S + 1`) returns a world in which the child is ESTABLISHED, is
no longer in the parent's `listen_queue` and is at the tail of the parent's
`accept_queue`; the calls made are the state change of the child and the wake-up
of the parent's `wait_accept`. -/
theorem handshake_completes (env : Env) (w : World) (p : Nat) (s : tcp_sock)
    (syn ack : tcp_cb)
    (h : w.socks[p]? = some s) (hst : s.state = tcp_state.TCP_LISTEN)
    (_hsyn : syn.flags = TCP_SYN) (hse : syn.seq_end = (syn.seq + 1) % 2 ^ 32)
    (hack : ack.flags = TCP_ACK) (has : ack.seq = (syn.seq + 1) % 2 ^ 32)
    (hae : ack.seq_end = (syn.seq + 1) % 2 ^ 32) (_hpl : ack.pl_len = 0)
    (hnw : (syn.seq + 1) % 2 ^ 32 + max env.fresh.rcv_wnd 1 < 2 ^ 32) :
    ∃ w1 w2 child parent,
      tcp_process env w p syn = some w1 ∧
      tcp_process env w1 w.socks.length ack = some w2 ∧
      w2.socks[w.socks.length]? = some child ∧
      child.state = tcp_state.TCP_ESTABLISHED ∧
      w2.socks[p]? = some parent ∧
      parent.listen_queue = s.listen_queue.filter (fun x => x != w.socks.length) ∧
      parent.accept_queue
        = s.accept_queue.filter (fun x => x != w.socks.length) ++ [w.socks.length] ∧
      w.socks.length ∉ parent.listen_queue ∧
      w.socks.length ∈ parent.accept_queue ∧
      w2.trace = w1.trace ++ [Event.set_state w.socks.length tcp_state.TCP_ESTABLISHED,
                              Event.wake_up p wait_cond.wait_accept] := by
  have hlt : p < w.socks.length := (List.getElem?_eq_some.mp h).1
  have hne : p ≠ w.socks.length := Nat.ne_of_lt hlt
  have h1 : tcp_process env w p syn = some
      { socks :=
          w.socks.set p { s with listen_queue := s.listen_queue ++ [w.socks.length] }
            ++ [{ env.fresh with
                  sk_sip := syn.daddr, sk_dip := syn.saddr,
                  sk_sport := syn.dport, sk_dport := syn.sport,
                  rcv_nxt := (syn.seq + 1) % 2 ^ 32, parent := some p,
                  state := tcp_state.TCP_SYN_RECV }],
        trace := w.trace ++ [Event.send_control w.socks.length (TCP_SYN ||| TCP_ACK),
                             Event.set_state w.socks.length tcp_state.TCP_SYN_RECV,
                             Event.hash w.socks.length] } := by
    rw [tcp_process_eq_listen env w p s syn h hst, tcp_state_listen_eq env w p s syn h,
      listen_child, hse]
  -- the world after the SYN
  generalize hw1 :
    ({ socks :=
          w.socks.set p { s with listen_queue := s.listen_queue ++ [w.socks.length] }
            ++ [{ env.fresh with
                  sk_sip := syn.daddr, sk_dip := syn.saddr,
                  sk_sport := syn.dport, sk_dport := syn.sport,
                  rcv_nxt := (syn.seq + 1) % 2 ^ 32, parent := some p,
                  state := tcp_state.TCP_SYN_RECV }],
        trace := w.trace ++ [Event.send_control w.socks.length (TCP_SYN ||| TCP_ACK),
                             Event.set_state w.socks.length tcp_state.TCP_SYN_RECV,
                             Event.hash w.socks.length] } : World) = w1 at h1
  generalize hch :
    ({ env.fresh with
        sk_sip := syn.daddr, sk_dip := syn.saddr,
        sk_sport := syn.dport, sk_dport := syn.sport,
        rcv_nxt := (syn.seq + 1) % 2 ^ 32, parent := some p,
        state := tcp_state.TCP_SYN_RECV } : tcp_sock) = ch at hw1
  have hc1 : w1.socks[w.socks.length]? = some ch := by
    rw [← hw1]
    simp
  have hp1 : w1.socks[p]? = some
      { s with listen_queue := s.listen_queue ++ [w.socks.length] } := by
    rw [← hw1]
    simp [List.getElem?_append_left, List.getElem?_set, hlt]
  have hchs : ch.state = tcp_state.TCP_SYN_RECV := by rw [← hch]
  have hchp : ch.parent = some p := by rw [← hch]
  have hv : is_tcp_seq_valid ch ack = 1 := by
    rw [is_tcp_seq_valid_eq]
    have e1 : ch.rcv_nxt = (syn.seq + 1) % 2 ^ 32 := by rw [← hch]
    have e2 : ch.rcv_wnd = env.fresh.rcv_wnd := by rw [← hch]
    rw [e1, e2, has, hae, Nat.mod_eq_of_lt hnw]
    have hpos : 0 < max env.fresh.rcv_wnd 1 := by omega
    rw [if_pos ⟨by omega, le_refl _⟩]
  have h2 : tcp_process env w1 w.socks.length ack
      = tcp_state_syn_recv w1 w.socks.length ack := by
    rw [tcp_process_eq_shared env w1 _ ch ack hc1 (by rw [hchs]; decide)
      (by rw [hchs]; decide) (by rw [hchs]; decide)]
    have a1 : TCP_ACK &&& TCP_RST = 0 := by decide
    have a2 : TCP_ACK &&& TCP_SYN = 0 := by decide
    have a3 : TCP_ACK ≠ 0 := by decide
    unfold tcp_process_shared
    rw [hv, hack]
    simp [hchs, a1, a2, a3]
  rw [tcp_state_syn_recv_eq w1 _ p ch _ ack hc1 hchp hp1] at h2
  have hcg :
      (wake_up
        (tcp_set_state
          ((list_delete_entry w1 w.socks.length).modify p
            fun q => { q with accept_queue := q.accept_queue ++ [w.socks.length] })
          w.socks.length tcp_state.TCP_ESTABLISHED)
        p wait_cond.wait_accept).socks[w.socks.length]?
      = some
        { ch with listen_queue := ch.listen_queue.filter (fun x => x != w.socks.length),
                  accept_queue := ch.accept_queue.filter (fun x => x != w.socks.length),
                  state := tcp_state.TCP_ESTABLISHED } := by
    simp only [wake_up, tcp_set_state, World.socks_emit, World.get_modify, hne, if_true,
      if_false]
    simp only [list_delete_entry, List.getElem?_map, hc1, Option.map_some']
  have hpg :
      (wake_up
        (tcp_set_state
          ((list_delete_entry w1 w.socks.length).modify p
            fun q => { q with accept_queue := q.accept_queue ++ [w.socks.length] })
          w.socks.length tcp_state.TCP_ESTABLISHED)
        p wait_cond.wait_accept).socks[p]?
      = some
        { s with
          listen_queue :=
            (s.listen_queue ++ [w.socks.length]).filter (fun x => x != w.socks.length),
          accept_queue :=
            s.accept_queue.filter (fun x => x != w.socks.length) ++ [w.socks.length] } := by
    simp only [wake_up, tcp_set_state, World.socks_emit, World.get_modify, hne.symm, if_true,
      if_false]
    simp only [list_delete_entry, List.getElem?_map, hp1, Option.map_some']
  refine ⟨w1, _, _, _, h1, h2, hcg, rfl, hpg, ?_, rfl, ?_, ?_, ?_⟩
  · simp [List.filter_append]
  · simp [List.filter_append]
  · simp
  · simp [wake_up, tcp_set_state, list_delete_entry]

theorem handshake_completes_witness :
    ∃ w1 w2 child parent,
      tcp_process env_u16 (world_one { sock_zero with state := tcp_state.TCP_LISTEN }) 0
        { cb_zero with seq := 1000, seq_end := 1001, flags := TCP_SYN } = some w1 ∧
      tcp_process env_u16 w1
        (world_one { sock_zero with state := tcp_state.TCP_LISTEN }).socks.length
        { cb_zero with seq := 1001, seq_end := 1001, flags := TCP_ACK } = some w2 ∧
      w2.socks[(world_one { sock_zero with state := tcp_state.TCP_LISTEN }).socks.length]?
        = some child ∧
      child.state = tcp_state.TCP_ESTABLISHED ∧
      w2.socks[0]? = some parent ∧
      parent.listen_queue = ([] : List Nat).filter (fun x =>
        x != (world_one { sock_zero with state := tcp_state.TCP_LISTEN }).socks.length) ∧
      parent.accept_queue = ([] : List Nat).filter (fun x =>
        x != (world_one { sock_zero with state := tcp_state.TCP_LISTEN }).socks.length)
          ++ [(world_one { sock_zero with state := tcp_state.TCP_LISTEN }).socks.length] ∧
      (world_one { sock_zero with state := tcp_state.TCP_LISTEN }).socks.length
        ∉ parent.listen_queue ∧
      (world_one { sock_zero with state := tcp_state.TCP_LISTEN }).socks.length
        ∈ parent.accept_queue ∧
      w2.trace = w1.trace ++
        [Event.set_state (world_one { sock_zero with state := tcp_state.TCP_LISTEN }).socks.length
            tcp_state.TCP_ESTABLISHED,
         Event.wake_up 0 wait_cond.wait_accept] :=
  handshake_completes env_u16 (world_one { sock_zero with state := tcp_state.TCP_LISTEN }) 0
    { sock_zero with state := tcp_state.TCP_LISTEN }
    { cb_zero with seq := 1000, seq_end := 1001, flags := TCP_SYN }
    { cb_zero with seq := 1001, seq_end := 1001, flags := TCP_ACK }
    rfl rfl rfl (by decide) rfl (by decide) (by decide) rfl (by decide)

/-! ## Active open -/

/-- C9: a SYN_SENT socket that receives a segment whose flags are exactly
SYN|ACK gets `rcv_nxt := seq_end` and state ESTABLISHED, and the calls made are
one ACK control segment, the state change and the wake-up of `wait_connect`;
this holds for every `seq` and `seq_end`, the validator is not consulted. -/
theorem tcp_process_syn_sent_synack (env : Env) (w : World) (tsk : Nat) (s : tcp_sock)
    (cb : tcp_cb) (h : w.socks[tsk]? = some s) (hst : s.state = tcp_state.TCP_SYN_SENT)
    (hf : cb.flags = TCP_SYN ||| TCP_ACK) :
    tcp_process env w tsk cb = some
      { socks := w.socks.set tsk
          { s with rcv_nxt := cb.seq_end, state := tcp_state.TCP_ESTABLISHED },
        trace := w.trace ++ [Event.send_control tsk TCP_ACK,
                             Event.set_state tsk tcp_state.TCP_ESTABLISHED,
                             Event.wake_up tsk wait_cond.wait_connect] } := by
  unfold tcp_process
  rw [h]
  simp only [hst, tcp_state_syn_sent, hf, ne_eq, not_true_eq_false, if_false,
    tcp_send_control_packet, tcp_set_state, wake_up, World.modify_emit, World.modify_modify]
  rw [World.modify_of_get _ h]
  simp [World.emit]

theorem tcp_process_syn_sent_synack_witness :
    tcp_process env_u16
        (world_one { sock_zero with state := tcp_state.TCP_SYN_SENT, rcv_nxt := 0 }) 0
        { cb_zero with seq := 5000, seq_end := 5001, flags := TCP_SYN ||| TCP_ACK }
      = some
        { socks := [{ sock_zero with state := tcp_state.TCP_ESTABLISHED, rcv_nxt := 5001 }],
          trace := [Event.send_control 0 TCP_ACK,
                    Event.set_state 0 tcp_state.TCP_ESTABLISHED,
                    Event.wake_up 0 wait_cond.wait_connect] } :=
  tcp_process_syn_sent_synack env_u16
    (world_one { sock_zero with state := tcp_state.TCP_SYN_SENT, rcv_nxt := 0 }) 0
    { sock_zero with state := tcp_state.TCP_SYN_SENT, rcv_nxt := 0 }
    { cb_zero with seq := 5000, seq_end := 5001, flags := TCP_SYN ||| TCP_ACK }
    rfl rfl rfl

/-- C10, refuted as stated: a SYN_SENT socket that receives a bare ACK is still
in SYN_SENT afterwards, not in CLOSED; the only effect is the RST. -/
theorem tcp_process_syn_sent_other_stays_syn_sent :
    tcp_process env_u16 (world_one { sock_zero with state := tcp_state.TCP_SYN_SENT }) 0
        { cb_zero with flags := TCP_ACK }
      = some { socks := [{ sock_zero with state := tcp_state.TCP_SYN_SENT }],
               trace := [Event.send_reset { cb_zero with flags := TCP_ACK }] } := by
  decide

/-- C10, amended: a SYN_SENT socket that receives a segment whose flags are not
exactly SYN|ACK replies with RST and is left unchanged in every field: the state
stays SYN_SENT, `rcv_nxt` is not changed, and no other call (in particular no
wake-up of `wait_connect`) is made. -/
theorem tcp_process_syn_sent_other (env : Env) (w : World) (tsk : Nat) (s : tcp_sock)
    (cb : tcp_cb) (h : w.socks[tsk]? = some s) (hst : s.state = tcp_state.TCP_SYN_SENT)
    (hf : cb.flags ≠ TCP_SYN ||| TCP_ACK) :
    tcp_process env w tsk cb = some { w with trace := w.trace ++ [Event.send_reset cb] } := by
  unfold tcp_process
  rw [h]
  simp only [hst, tcp_state_syn_sent, ne_eq, hf, not_false_eq_true, if_true, tcp_send_reset,
    World.emit]

theorem tcp_process_syn_sent_other_witness :
    tcp_process env_u16 (world_one { sock_zero with state := tcp_state.TCP_SYN_SENT }) 0
        { cb_zero with flags := TCP_SYN }
      = some { socks := [{ sock_zero with state := tcp_state.TCP_SYN_SENT }],
               trace := [Event.send_reset { cb_zero with flags := TCP_SYN }] } :=
  tcp_process_syn_sent_other env_u16
    (world_one { sock_zero with state := tcp_state.TCP_SYN_SENT }) 0
    { sock_zero with state := tcp_state.TCP_SYN_SENT } { cb_zero with flags := TCP_SYN }
    rfl rfl (by decide)

/-! ## The data path of the shared pipeline -/

theorem set_of_get {l : List tcp_sock} {i : Nat} {s : tcp_sock} (h : l[i]? = some s) :
    l.set i s = l := by
  apply List.ext_getElem?
  intro j
  by_cases hij : i = j
  · subst hij
    have hi : i < l.length := (List.getElem?_eq_some.mp h).1
    simp [hi, h]
  · simp [List.getElem?_set, hij]

theorem World.modify_set (l : List tcp_sock) (t : List Event) (i : Nat) (a : tcp_sock)
    (f : tcp_sock → tcp_sock) (hi : i < l.length) :
    World.modify { socks := l.set i a, trace := t } i f
      = { socks := l.set i (f a), trace := t } := by
  have hg : (l.set i a)[i]? = some a := by simp [hi]
  rw [World.modify_of_get f hg]
  simp [List.set_set]

/-- The send-window update on a world given by its socket list. -/
theorem tcp_update_window_safe_set (l : List tcp_sock) (t : List Event) (i : Nat)
    (a : tcp_sock) (cb : tcp_cb) (hi : i < l.length) :
    tcp_update_window_safe { socks := l.set i a, trace := t } i cb
      = { socks := l.set i
            { a with snd_wnd :=
                if a.snd_una ≤ cb.ack ∧ cb.ack ≤ a.snd_nxt then cb.rwnd else a.snd_wnd },
          trace := t ++
            (if (a.snd_una ≤ cb.ack ∧ cb.ack ≤ a.snd_nxt) ∧ a.snd_wnd % 2 ^ 16 = 0
              then [Event.wake_up i wait_cond.wait_send] else []) } := by
  have hg : (l.set i a)[i]? = some a := by simp [hi]
  unfold tcp_update_window_safe
  simp only [hg]
  by_cases hr : a.snd_una ≤ cb.ack ∧ cb.ack ≤ a.snd_nxt
  · rw [if_pos hr, if_pos hr]
    unfold tcp_update_window
    simp only [hg, World.modify_set _ _ _ _ _ hi]
    by_cases h0 : a.snd_wnd % 2 ^ 16 = 0
    · rw [if_pos h0, if_pos ⟨hr, h0⟩]
      rfl
    · rw [if_neg h0, if_neg (fun hc => h0 hc.2)]
      simp
  · rw [if_neg hr, if_neg hr, if_neg (fun hc => hr hc.1)]
    simp

/-- The data path on a world given by its socket list. -/
theorem tcp_process_data_set (env : Env) (l : List tcp_sock) (t : List Event) (i : Nat)
    (a : tcp_sock) (cb : tcp_cb) (hi : i < l.length) :
    tcp_process_data env { socks := l.set i a, trace := t } i cb =
      if cb.flags &&& TCP_FIN ≠ 0 then
        { socks := l.set i
            { data_sock env a cb with
              state := tcp_state.TCP_LAST_ACK, rcv_nxt := cb.seq_end },
          trace := t ++ data_events i a cb ++
            [Event.set_state i tcp_state.TCP_CLOSE_WAIT, Event.send_control i TCP_ACK,
             Event.send_control i (TCP_FIN ||| TCP_ACK),
             Event.set_state i tcp_state.TCP_LAST_ACK] }
      else if cb.flags ≠ TCP_ACK then
        { socks := l.set i { data_sock env a cb with rcv_nxt := cb.seq_end },
          trace := t ++ data_events i a cb ++ [Event.send_control i TCP_ACK] }
      else
        { socks := l.set i (data_sock env a cb), trace := t ++ data_events i a cb } := by
  unfold tcp_process_data
  simp only [World.modify_set _ _ _ _ _ hi, tcp_update_window_safe_set _ _ _ _ _ hi,
    tcp_recv_data, tcp_set_state, wake_up, tcp_send_control_packet, World.emit]
  by_cases hp : cb.pl_len > 0
  · simp only [if_pos hp, World.modify_set _ _ _ _ _ hi, data_sock, data_events,
      List.append_assoc, List.singleton_append, List.nil_append, List.cons_append]
  · simp only [if_neg hp, World.modify_set _ _ _ _ _ hi, data_sock, data_events,
      List.append_assoc, List.singleton_append, List.nil_append, List.cons_append,
      List.append_nil]

/-- The data path for the socket `s` that `tsk` points to. -/
theorem tcp_process_data_eq (env : Env) (w : World) (tsk : Nat) (s : tcp_sock) (cb : tcp_cb)
    (h : w.socks[tsk]? = some s) :
    tcp_process_data env w tsk cb =
      if cb.flags &&& TCP_FIN ≠ 0 then
        { socks := w.socks.set tsk
            { data_sock env s cb with
              state := tcp_state.TCP_LAST_ACK, rcv_nxt := cb.seq_end },
          trace := w.trace ++ data_events tsk s cb ++
            [Event.set_state tsk tcp_state.TCP_CLOSE_WAIT, Event.send_control tsk TCP_ACK,
             Event.send_control tsk (TCP_FIN ||| TCP_ACK),
             Event.set_state tsk tcp_state.TCP_LAST_ACK] }
      else if cb.flags ≠ TCP_ACK then
        { socks := w.socks.set tsk { data_sock env s cb with rcv_nxt := cb.seq_end },
          trace := w.trace ++ data_events tsk s cb ++ [Event.send_control tsk TCP_ACK] }
      else
        { socks := w.socks.set tsk (data_sock env s cb),
          trace := w.trace ++ data_events tsk s cb } := by
  have hi : tsk < w.socks.length := (List.getElem?_eq_some.mp h).1
  have hc := tcp_process_data_set env w.socks w.trace tsk s cb hi
  rw [set_of_get h] at hc
  exact hc

/-- An admitted segment without RST and SYN, with ACK or FIN, takes a socket in
ESTABLISHED or CLOSE_WAIT to the data path. -/
theorem tcp_process_eq_data (env : Env) (w : World) (tsk : Nat) (s : tcp_sock) (cb : tcp_cb)
    (h : w.socks[tsk]? = some s)
    (hst : s.state = tcp_state.TCP_ESTABLISHED ∨ s.state = tcp_state.TCP_CLOSE_WAIT)
    (hv : is_tcp_seq_valid s cb = 1)
    (hr : cb.flags &&& TCP_RST = 0) (hs : cb.flags &&& TCP_SYN = 0)
    (ha : ¬ (cb.flags &&& TCP_ACK = 0 ∧ cb.flags &&& TCP_FIN = 0)) :
    tcp_process env w tsk cb = some (tcp_process_data env w tsk cb) := by
  rcases hst with hst | hst
  · rw [tcp_process_eq_shared env w tsk s cb h (by rw [hst]; decide) (by rw [hst]; decide)
      (by rw [hst]; decide)]
    unfold tcp_process_shared
    rw [hv, if_neg (by decide), if_neg (by simp [hr]), if_neg (by simp [hs]), if_neg ha]
    simp [hst]
  · rw [tcp_process_eq_shared env w tsk s cb h (by rw [hst]; decide) (by rw [hst]; decide)
      (by rw [hst]; decide)]
    unfold tcp_process_shared
    rw [hv, if_neg (by decide), if_neg (by simp [hr]), if_neg (by simp [hs]), if_neg ha]
    simp [hst]

/-! ## Teardown -/

/-- C11: an ESTABLISHED socket that receives an admitted segment with FIN set
and neither RST nor SYN ends, in one call, in state LAST_ACK with
`rcv_nxt = seq_end`; after the window and data steps the calls are, in order:
state change to CLOSE_WAIT, ACK, FIN|ACK, state change to LAST_ACK, and the
segments emitted by the call are exactly ACK followed by FIN|ACK. -/
theorem passive_close_collapse (env : Env) (w : World) (tsk : Nat) (s : tcp_sock)
    (cb : tcp_cb) (h : w.socks[tsk]? = some s)
    (hst : s.state = tcp_state.TCP_ESTABLISHED) (hf : cb.flags &&& TCP_FIN ≠ 0)
    (hv : is_tcp_seq_valid s cb = 1)
    (hr : cb.flags &&& TCP_RST = 0) (hs : cb.flags &&& TCP_SYN = 0) :
    tcp_process env w tsk cb = some
      { socks := w.socks.set tsk
          { data_sock env s cb with
            state := tcp_state.TCP_LAST_ACK, rcv_nxt := cb.seq_end },
        trace := w.trace ++ data_events tsk s cb ++
          [Event.set_state tsk tcp_state.TCP_CLOSE_WAIT, Event.send_control tsk TCP_ACK,
           Event.send_control tsk (TCP_FIN ||| TCP_ACK),
           Event.set_state tsk tcp_state.TCP_LAST_ACK] } ∧
    (data_events tsk s cb ++
        [Event.set_state tsk tcp_state.TCP_CLOSE_WAIT, Event.send_control tsk TCP_ACK,
         Event.send_control tsk (TCP_FIN ||| TCP_ACK),
         Event.set_state tsk tcp_state.TCP_LAST_ACK]).filter Event.is_segment
      = [Event.send_control tsk TCP_ACK, Event.send_control tsk (TCP_FIN ||| TCP_ACK)] := by
  constructor
  · rw [tcp_process_eq_data env w tsk s cb h (Or.inl hst) hv hr hs (fun hc => hf hc.2),
      tcp_process_data_eq env w tsk s cb h, if_pos hf]
  · unfold data_events
    split <;> split <;> simp [Event.is_segment]

theorem passive_close_collapse_witness :
    tcp_process env_u16
        (world_one { sock_zero with state := tcp_state.TCP_ESTABLISHED, rcv_nxt := 100,
                                    rcv_wnd := 1000, snd_wnd := 5 }) 0
        { cb_zero with seq := 100, seq_end := 101, flags := TCP_FIN ||| TCP_ACK }
      = some
        { socks := [{ sock_zero with state := tcp_state.TCP_LAST_ACK, rcv_nxt := 101,
                                     rcv_wnd := 1000, snd_wnd := 0 }],
          trace := [Event.set_state 0 tcp_state.TCP_CLOSE_WAIT, Event.send_control 0 TCP_ACK,
                    Event.send_control 0 (TCP_FIN ||| TCP_ACK),
                    Event.set_state 0 tcp_state.TCP_LAST_ACK] } :=
  (passive_close_collapse env_u16
    (world_one { sock_zero with state := tcp_state.TCP_ESTABLISHED, rcv_nxt := 100,
                                rcv_wnd := 1000, snd_wnd := 5 }) 0
    { sock_zero with state := tcp_state.TCP_ESTABLISHED, rcv_nxt := 100,
                     rcv_wnd := 1000, snd_wnd := 5 }
    { cb_zero with seq := 100, seq_end := 101, flags := TCP_FIN ||| TCP_ACK }
    rfl rfl (by decide) (by decide) (by decide) (by decide)).1

/-- C12: a LAST_ACK socket that receives an admitted segment with ACK set and
neither RST nor SYN gets state CLOSED and nothing else changes (`rcv_nxt`,
`rcv_wnd`, `snd_wnd` keep their values); the calls made are the state change and
one `tcp_unhash` of the socket, so no segment is emitted. -/
theorem last_ack_cleanup (env : Env) (w : World) (tsk : Nat) (s : tcp_sock) (cb : tcp_cb)
    (h : w.socks[tsk]? = some s) (hst : s.state = tcp_state.TCP_LAST_ACK)
    (ha : cb.flags &&& TCP_ACK ≠ 0) (hv : is_tcp_seq_valid s cb = 1)
    (hr : cb.flags &&& TCP_RST = 0) (hs : cb.flags &&& TCP_SYN = 0) :
    tcp_process env w tsk cb = some
      { socks := w.socks.set tsk { s with state := tcp_state.TCP_CLOSED },
        trace := w.trace ++ [Event.set_state tsk tcp_state.TCP_CLOSED, Event.unhash tsk] } := by
  rw [tcp_process_eq_shared env w tsk s cb h (by rw [hst]; decide) (by rw [hst]; decide)
    (by rw [hst]; decide)]
  unfold tcp_process_shared
  rw [hv, if_neg (by decide), if_neg (by simp [hr]), if_neg (by simp [hs]),
    if_neg (fun hc => ha hc.1)]
  simp [hst, tcp_unhash, tcp_set_state, World.modify_of_get _ h, World.emit]

theorem last_ack_cleanup_witness :
    tcp_process env_u16
        (world_one { sock_zero with state := tcp_state.TCP_LAST_ACK, rcv_nxt := 100,
                                    rcv_wnd := 10, snd_wnd := 3 }) 0
        { cb_zero with seq := 100, seq_end := 100, flags := TCP_ACK }
      = some
        { socks := [{ sock_zero with state := tcp_state.TCP_CLOSED, rcv_nxt := 100,
                                     rcv_wnd := 10, snd_wnd := 3 }],
          trace := [Event.set_state 0 tcp_state.TCP_CLOSED, Event.unhash 0] } :=
  last_ack_cleanup env_u16
    (world_one { sock_zero with state := tcp_state.TCP_LAST_ACK, rcv_nxt := 100,
                                rcv_wnd := 10, snd_wnd := 3 }) 0
    { sock_zero with state := tcp_state.TCP_LAST_ACK, rcv_nxt := 100, rcv_wnd := 10,
                     snd_wnd := 3 }
    { cb_zero with seq := 100, seq_end := 100, flags := TCP_ACK }
    rfl rfl (by decide) (by decide) (by decide) (by decide)

/-- C13: in a state other than CLOSED, LISTEN and SYN_SENT, an admitted segment
with RST set makes `tcp_process` call `tcp_sock_close` once and do nothing else:
the sockets are unchanged and no other call is made, whatever the other flags
and the payload are. -/
theorem rst_precedence (env : Env) (w : World) (tsk : Nat) (s : tcp_sock) (cb : tcp_cb)
    (h : w.socks[tsk]? = some s)
    (h1 : s.state ≠ tcp_state.TCP_CLOSED) (h2 : s.state ≠ tcp_state.TCP_LISTEN)
    (h3 : s.state ≠ tcp_state.TCP_SYN_SENT)
    (hv : is_tcp_seq_valid s cb = 1) (hrst : cb.flags &&& TCP_RST ≠ 0) :
    tcp_process env w tsk cb
      = some { w with trace := w.trace ++ [Event.sock_close tsk] } := by
  rw [tcp_process_eq_shared env w tsk s cb h h1 h2 h3]
  unfold tcp_process_shared
  rw [hv, if_neg (by decide), if_pos hrst]
  rfl

theorem rst_precedence_witness :
    tcp_process env_u16
        (world_one { sock_zero with state := tcp_state.TCP_ESTABLISHED, rcv_nxt := 100,
                                    rcv_wnd := 10 }) 0
        { cb_zero with seq := 100, seq_end := 103, payload := [1, 2, 3], pl_len := 3,
                       flags := TCP_RST ||| TCP_SYN ||| TCP_ACK ||| TCP_FIN }
      = some
        { socks := [{ sock_zero with state := tcp_state.TCP_ESTABLISHED, rcv_nxt := 100,
                                     rcv_wnd := 10 }],
          trace := [Event.sock_close 0] } :=
  rst_precedence env_u16
    (world_one { sock_zero with state := tcp_state.TCP_ESTABLISHED, rcv_nxt := 100,
                                rcv_wnd := 10 }) 0
    { sock_zero with state := tcp_state.TCP_ESTABLISHED, rcv_nxt := 100, rcv_wnd := 10 }
    { cb_zero with seq := 100, seq_end := 103, payload := [1, 2, 3], pl_len := 3,
                   flags := TCP_RST ||| TCP_SYN ||| TCP_ACK ||| TCP_FIN }
    rfl (by decide) (by decide) (by decide) (by decide) (by decide)

/-! ## The final ACK -/

/-- C15, the code at the failing input: an ESTABLISHED socket with
`rcv_nxt = 100` receives an admitted data segment of 10 bytes
(`seq = 100`, `seq_end = 110`) whose flags are exactly ACK.  The payload is
appended to the receive buffer, `rcv_wnd` is decremented and `wait_recv` is
woken, but `rcv_nxt` stays 100 and no ACK is emitted. -/
theorem final_ack_skipped_for_plain_ack_data :
    tcp_process env_u16
        (world_one { sock_zero with state := tcp_state.TCP_ESTABLISHED, rcv_nxt := 100,
                                    rcv_wnd := 1000, snd_wnd := 500 }) 0
        { cb_zero with seq := 100, seq_end := 110, flags := TCP_ACK, rwnd := 500,
                       payload := [1, 2, 3, 4, 5, 6, 7, 8, 9, 10], pl_len := 10 }
      = some
        { socks := [{ sock_zero with state := tcp_state.TCP_ESTABLISHED, rcv_nxt := 100,
                                     rcv_wnd := 990, snd_wnd := 500,
                                     rcv_buf := [1, 2, 3, 4, 5, 6, 7, 8, 9, 10] }],
          trace := [Event.wake_up 0 wait_cond.wait_recv] } := by
  decide

/-! ## Gates of the shared pipeline -/

/-- C16, refuted as stated: a FIN_WAIT_1 socket that receives an admitted
segment whose only flag is FIN (the ACK flag is not set) moves to FIN_WAIT_2. -/
theorem fin_without_ack_changes_state :
    TCP_FIN &&& TCP_ACK = 0 ∧
    tcp_process env_u16
        (world_one { sock_zero with state := tcp_state.TCP_FIN_WAIT_1, rcv_nxt := 100,
                                    rcv_wnd := 10 }) 0
        { cb_zero with seq := 100, seq_end := 101, flags := TCP_FIN }
      = some
        { socks := [{ sock_zero with state := tcp_state.TCP_FIN_WAIT_2, rcv_nxt := 100,
                                     rcv_wnd := 10 }],
          trace := [Event.set_state 0 tcp_state.TCP_FIN_WAIT_2] } := by
  decide

/-- C16, amended: for a socket in SYN_RECV, FIN_WAIT_1 or LAST_ACK, a segment
with neither ACK nor FIN set never changes the state: `tcp_process` returns the
world unchanged, or unchanged up to one call of `tcp_sock_close` (admitted
segment with RST or SYN). -/
theorem no_ack_no_fin_keeps_state (env : Env) (w : World) (tsk : Nat) (s : tcp_sock)
    (cb : tcp_cb) (h : w.socks[tsk]? = some s)
    (hst : s.state = tcp_state.TCP_SYN_RECV ∨ s.state = tcp_state.TCP_FIN_WAIT_1 ∨
      s.state = tcp_state.TCP_LAST_ACK)
    (ha : cb.flags &&& TCP_ACK = 0) (hf : cb.flags &&& TCP_FIN = 0) :
    tcp_process env w tsk cb = some w ∨
    tcp_process env w tsk cb = some { w with trace := w.trace ++ [Event.sock_close tsk] } := by
  have h123 : s.state ≠ tcp_state.TCP_CLOSED ∧ s.state ≠ tcp_state.TCP_LISTEN ∧
      s.state ≠ tcp_state.TCP_SYN_SENT := by
    rcases hst with hst | hst | hst <;> rw [hst] <;> decide
  rw [tcp_process_eq_shared env w tsk s cb h h123.1 h123.2.1 h123.2.2]
  unfold tcp_process_shared
  by_cases hv : is_tcp_seq_valid s cb = 0
  · left
    rw [if_pos hv]
  · rw [if_neg hv]
    by_cases hr : cb.flags &&& TCP_RST ≠ 0
    · right
      rw [if_pos hr]
      rfl
    · rw [if_neg hr]
      by_cases hs : cb.flags &&& TCP_SYN ≠ 0
      · right
        rw [if_pos hs]
        rfl
      · left
        rw [if_neg hs, if_pos ⟨ha, hf⟩]

theorem no_ack_no_fin_keeps_state_witness :
    tcp_process env_u16
        (world_one { sock_zero with state := tcp_state.TCP_FIN_WAIT_1, rcv_nxt := 100,
                                    rcv_wnd := 10 }) 0
        { cb_zero with seq := 100, seq_end := 100, flags := 0 }
      = some (world_one { sock_zero with state := tcp_state.TCP_FIN_WAIT_1, rcv_nxt := 100,
                                         rcv_wnd := 10 }) ∨
    tcp_process env_u16
        (world_one { sock_zero with state := tcp_state.TCP_FIN_WAIT_1, rcv_nxt := 100,
                                    rcv_wnd := 10 }) 0
        { cb_zero with seq := 100, seq_end := 100, flags := 0 }
      = some { world_one { sock_zero with state := tcp_state.TCP_FIN_WAIT_1, rcv_nxt := 100,
                                          rcv_wnd := 10 } with
               trace := (world_one { sock_zero with state := tcp_state.TCP_FIN_WAIT_1,
                                                    rcv_nxt := 100, rcv_wnd := 10 }).trace
                 ++ [Event.sock_close 0] } :=
  no_ack_no_fin_keeps_state env_u16
    (world_one { sock_zero with state := tcp_state.TCP_FIN_WAIT_1, rcv_nxt := 100,
                                rcv_wnd := 10 }) 0
    { sock_zero with state := tcp_state.TCP_FIN_WAIT_1, rcv_nxt := 100, rcv_wnd := 10 }
    { cb_zero with seq := 100, seq_end := 100, flags := 0 }
    rfl (Or.inr (Or.inl rfl)) (by decide) (by decide)

/-- C17: for a FIN_WAIT_2 socket and an admitted segment without RST and SYN
that has ACK or FIN set: when the flags are exactly FIN|ACK, `rcv_nxt` becomes
`seq_end`, the calls made are one ACK and the arming of the time-wait timer, and
the state stays FIN_WAIT_2; for any other flags the world is returned unchanged
(no payload appended, `rcv_wnd` not decremented, nothing emitted). -/
theorem fin_wait_2_segment (env : Env) (w : World) (tsk : Nat) (s : tcp_sock) (cb : tcp_cb)
    (h : w.socks[tsk]? = some s) (hst : s.state = tcp_state.TCP_FIN_WAIT_2)
    (hv : is_tcp_seq_valid s cb = 1)
    (hr : cb.flags &&& TCP_RST = 0) (hs : cb.flags &&& TCP_SYN = 0)
    (ha : ¬ (cb.flags &&& TCP_ACK = 0 ∧ cb.flags &&& TCP_FIN = 0)) :
    tcp_process env w tsk cb = some
      (if cb.flags = TCP_FIN ||| TCP_ACK then
        { socks := w.socks.set tsk { s with rcv_nxt := cb.seq_end },
          trace := w.trace ++ [Event.send_control tsk TCP_ACK, Event.set_timewait_timer tsk] }
      else w) := by
  rw [tcp_process_eq_shared env w tsk s cb h (by rw [hst]; decide) (by rw [hst]; decide)
    (by rw [hst]; decide)]
  unfold tcp_process_shared
  rw [hv, if_neg (by decide), if_neg (by simp [hr]), if_neg (by simp [hs]), if_neg ha]
  by_cases hfa : cb.flags = TCP_FIN ||| TCP_ACK
  · simp [hst, hfa, tcp_send_control_packet, tcp_set_timewait_timer, World.modify_of_get _ h,
      World.emit]
  · simp [hst, hfa]

theorem fin_wait_2_segment_witness :
    tcp_process env_u16
        (world_one { sock_zero with state := tcp_state.TCP_FIN_WAIT_2, rcv_nxt := 100,
                                    rcv_wnd := 10 }) 0
        { cb_zero with seq := 100, seq_end := 101, flags := TCP_FIN ||| TCP_ACK }
      = some
        (if ({ cb_zero with seq := 100, seq_end := 101,
                            flags := TCP_FIN ||| TCP_ACK } : tcp_cb).flags
            = TCP_FIN ||| TCP_ACK then
          { socks := (world_one { sock_zero with state := tcp_state.TCP_FIN_WAIT_2,
                                                 rcv_nxt := 100, rcv_wnd := 10 }).socks.set 0
              { sock_zero with state := tcp_state.TCP_FIN_WAIT_2, rcv_nxt := 101,
                               rcv_wnd := 10 },
            trace := (world_one { sock_zero with state := tcp_state.TCP_FIN_WAIT_2,
                                                 rcv_nxt := 100, rcv_wnd := 10 }).trace
              ++ [Event.send_control 0 TCP_ACK, Event.set_timewait_timer 0] }
        else world_one { sock_zero with state := tcp_state.TCP_FIN_WAIT_2, rcv_nxt := 100,
                                        rcv_wnd := 10 }) :=
  fin_wait_2_segment env_u16
    (world_one { sock_zero with state := tcp_state.TCP_FIN_WAIT_2, rcv_nxt := 100,
                                rcv_wnd := 10 }) 0
    { sock_zero with state := tcp_state.TCP_FIN_WAIT_2, rcv_nxt := 100, rcv_wnd := 10 }
    { cb_zero with seq := 100, seq_end := 101, flags := TCP_FIN ||| TCP_ACK }
    rfl rfl (by decide) (by decide) (by decide) (by decide)

/-! ## The LISTEN handler and the flags -/

/-- C20: for a LISTEN socket, replacing the flags of the segment by any other
flags does not change the result of `tcp_process`, which is always the world
with a new child in SYN_RECV appended to the `listen_queue`, a SYN+ACK emitted
on the child and the child registered with `tcp_hash`. -/
theorem listen_ignores_flags (env : Env) (w : World) (tsk : Nat) (s : tcp_sock) (cb : tcp_cb)
    (flags : Nat) (h : w.socks[tsk]? = some s) (hst : s.state = tcp_state.TCP_LISTEN) :
    tcp_process env w tsk { cb with flags := flags } = tcp_process env w tsk cb ∧
    tcp_process env w tsk cb = some
      { socks :=
          w.socks.set tsk { s with listen_queue := s.listen_queue ++ [w.socks.length] }
            ++ [{ env.fresh with
                  sk_sip := cb.daddr, sk_dip := cb.saddr,
                  sk_sport := cb.dport, sk_dport := cb.sport,
                  rcv_nxt := cb.seq_end, parent := some tsk,
                  state := tcp_state.TCP_SYN_RECV }],
        trace := w.trace ++ [Event.send_control w.socks.length (TCP_SYN ||| TCP_ACK),
                             Event.set_state w.socks.length tcp_state.TCP_SYN_RECV,
                             Event.hash w.socks.length] } := by
  constructor
  · rw [tcp_process_eq_listen env w tsk s _ h hst, tcp_process_eq_listen env w tsk s _ h hst,
      tcp_state_listen_eq env w tsk s _ h, tcp_state_listen_eq env w tsk s _ h]
    rfl
  · rw [tcp_process_eq_listen env w tsk s _ h hst, tcp_state_listen_eq env w tsk s _ h]
    rfl

theorem listen_ignores_flags_witness :
    tcp_process env_u16 (world_one { sock_zero with state := tcp_state.TCP_LISTEN }) 0
        { { cb_zero with seq := 1000, seq_end := 1001, flags := TCP_SYN } with
          flags := TCP_RST }
      = tcp_process env_u16 (world_one { sock_zero with state := tcp_state.TCP_LISTEN }) 0
        { cb_zero with seq := 1000, seq_end := 1001, flags := TCP_SYN } :=
  (listen_ignores_flags env_u16 (world_one { sock_zero with state := tcp_state.TCP_LISTEN }) 0
    { sock_zero with state := tcp_state.TCP_LISTEN }
    { cb_zero with seq := 1000, seq_end := 1001, flags := TCP_SYN } TCP_RST rfl rfl).1

/-! ## Case analysis of the shared pipeline -/

theorem is_tcp_seq_valid_01 (s : tcp_sock) (cb : tcp_cb) (hv : ¬ is_tcp_seq_valid s cb = 0) :
    is_tcp_seq_valid s cb = 1 := by
  unfold is_tcp_seq_valid at hv ⊢
  simp only at hv ⊢
  split
  · rfl
  · rename_i hc
    rw [if_neg hc] at hv
    exact absurd rfl hv

theorem is_tcp_seq_valid_le (s : tcp_sock) (cb : tcp_cb) (hv : is_tcp_seq_valid s cb = 1) :
    s.rcv_nxt ≤ cb.seq_end := by
  unfold is_tcp_seq_valid at hv
  simp only at hv
  split at hv
  · rename_i hc
    exact hc.2
  · exact absurd hv (by decide)

/-- The branches of the shared pipeline. -/
theorem tcp_process_shared_cases (env : Env) (w : World) (tsk : Nat) (s : tcp_sock)
    (cb : tcp_cb) (w' : World) (hres : tcp_process_shared env w tsk s cb = some w') :
    w' = w ∨ w' = tcp_sock_close w tsk ∨
    (is_tcp_seq_valid s cb = 1 ∧
      ((s.state = tcp_state.TCP_SYN_RECV ∧ tcp_state_syn_recv w tsk cb = some w') ∨
       w' = tcp_set_state w tsk tcp_state.TCP_FIN_WAIT_2 ∨
       w' = tcp_unhash (tcp_set_state w tsk tcp_state.TCP_CLOSED) tsk ∨
       w' = tcp_set_timewait_timer
          (tcp_send_control_packet
            (w.modify tsk fun s => { s with rcv_nxt := cb.seq_end }) tsk TCP_ACK) tsk ∨
       w' = tcp_process_data env w tsk cb)) := by
  unfold tcp_process_shared at hres
  by_cases hv : is_tcp_seq_valid s cb = 0
  · rw [if_pos hv] at hres
    exact Or.inl (Option.some.inj hres).symm
  · rw [if_neg hv] at hres
    have hv1 := is_tcp_seq_valid_01 s cb hv
    by_cases hr : cb.flags &&& TCP_RST ≠ 0
    · rw [if_pos hr] at hres
      exact Or.inr (Or.inl (Option.some.inj hres).symm)
    · rw [if_neg hr] at hres
      by_cases hs : cb.flags &&& TCP_SYN ≠ 0
      · rw [if_pos hs] at hres
        exact Or.inr (Or.inl (Option.some.inj hres).symm)
      · rw [if_neg hs] at hres
        by_cases ha : cb.flags &&& TCP_ACK = 0 ∧ cb.flags &&& TCP_FIN = 0
        · rw [if_pos ha] at hres
          exact Or.inl (Option.some.inj hres).symm
        · rw [if_neg ha] at hres
          by_cases c1 : s.state = tcp_state.TCP_SYN_RECV
          · rw [if_pos c1] at hres
            exact Or.inr (Or.inr ⟨hv1, Or.inl ⟨c1, hres⟩⟩)
          · rw [if_neg c1] at hres
            by_cases c2 : s.state = tcp_state.TCP_FIN_WAIT_1
            · rw [if_pos c2] at hres
              exact Or.inr (Or.inr ⟨hv1, Or.inr (Or.inl (Option.some.inj hres).symm)⟩)
            · rw [if_neg c2] at hres
              by_cases c3 : s.state = tcp_state.TCP_LAST_ACK
              · rw [if_pos c3] at hres
                exact Or.inr (Or.inr
                  ⟨hv1, Or.inr (Or.inr (Or.inl (Option.some.inj hres).symm))⟩)
              · rw [if_neg c3] at hres
                by_cases c4 : s.state = tcp_state.TCP_FIN_WAIT_2
                · rw [if_pos c4] at hres
                  by_cases c5 : cb.flags ≠ TCP_FIN ||| TCP_ACK
                  · rw [if_pos c5] at hres
                    exact Or.inl (Option.some.inj hres).symm
                  · rw [if_neg c5] at hres
                    exact Or.inr (Or.inr
                      ⟨hv1, Or.inr (Or.inr (Or.inr (Or.inl (Option.some.inj hres).symm)))⟩)
                · rw [if_neg c4] at hres
                  exact Or.inr (Or.inr
                    ⟨hv1, Or.inr (Or.inr (Or.inr (Or.inr (Option.some.inj hres).symm)))⟩)

/-- Every branch of the shared pipeline other than the handler of SYN_RECV
returns a world. -/
theorem tcp_process_shared_total (env : Env) (w : World) (tsk : Nat) (s : tcp_sock)
    (cb : tcp_cb) (hst : s.state ≠ tcp_state.TCP_SYN_RECV) :
    ∃ w', tcp_process_shared env w tsk s cb = some w' := by
  unfold tcp_process_shared
  split_ifs <;> exact ⟨_, rfl⟩

/-- A field update that keeps `rcv_nxt` and `rcv_buf` keeps them for the socket
read back at any index. -/
theorem World.get_modify_frame (w : World) (i j : Nat) (f : tcp_sock → tcp_sock)
    (a : tcp_sock)
    (hf : ∀ x, (f x).rcv_nxt = x.rcv_nxt ∧ (f x).rcv_buf = x.rcv_buf)
    (h : w.socks[j]? = some a) :
    ∃ b, (w.modify i f).socks[j]? = some b ∧ b.rcv_nxt = a.rcv_nxt ∧
      b.rcv_buf = a.rcv_buf := by
  rw [World.get_modify, h]
  by_cases hij : i = j
  · exact ⟨f a, by simp [hij], (hf a).1, (hf a).2⟩
  · exact ⟨a, by simp [hij], rfl, rfl⟩

/-- The handler of SYN_RECV keeps `rcv_nxt` and `rcv_buf` of the socket and makes
two calls: the state change and the wake-up of `wait_accept` of the parent. -/
theorem tcp_state_syn_recv_frame (w : World) (tsk : Nat) (s : tcp_sock) (cb : tcp_cb)
    (w' : World) (h : w.socks[tsk]? = some s)
    (hres : tcp_state_syn_recv w tsk cb = some w') :
    ∃ s' p, w'.socks[tsk]? = some s' ∧ s'.rcv_nxt = s.rcv_nxt ∧ s'.rcv_buf = s.rcv_buf ∧
      w'.trace = w.trace ++ [Event.set_state tsk tcp_state.TCP_ESTABLISHED,
                             Event.wake_up p wait_cond.wait_accept] := by
  cases hp : s.parent with
  | none =>
    exfalso
    simp [tcp_state_syn_recv, h, hp, tcp_sock_accept_enqueue, list_delete_entry] at hres
  | some p =>
    cases hps : w.socks[p]? with
    | none =>
      exfalso
      simp [tcp_state_syn_recv, h, hp, hps, tcp_sock_accept_enqueue, list_delete_entry]
        at hres
    | some ps =>
      rw [tcp_state_syn_recv_eq w tsk p s ps cb h hp hps] at hres
      have hw := (Option.some.inj hres).symm
      subst hw
      have hd : (list_delete_entry w tsk).socks[tsk]? = some
          { s with listen_queue := s.listen_queue.filter (fun x => x != tsk),
                   accept_queue := s.accept_queue.filter (fun x => x != tsk) } := by
        simp [list_delete_entry, h]
      obtain ⟨b1, hb1, hn1, hbuf1⟩ := World.get_modify_frame (list_delete_entry w tsk) p tsk
        (fun q => { q with accept_queue := q.accept_queue ++ [tsk] }) _
        (fun _ => ⟨rfl, rfl⟩) hd
      obtain ⟨b2, hb2, hn2, hbuf2⟩ := World.get_modify_frame _ tsk tsk
        (fun q => { q with state := tcp_state.TCP_ESTABLISHED }) b1
        (fun _ => ⟨rfl, rfl⟩) hb1
      refine ⟨b2, p, hb2, ?_, ?_, ?_⟩
      · rw [hn2, hn1]
      · rw [hbuf2, hbuf1]
      · simp [wake_up, tcp_set_state, list_delete_entry]

theorem sub_mod_of_le (m a b : Nat) (hb : b ≤ a) (ha : a < m) : sub_mod m a b = a - b := by
  unfold sub_mod
  have hbm : b % m = b := Nat.mod_eq_of_lt (by omega)
  have e : a + (m - b) = (a - b) + m := by omega
  rw [hbm, e, Nat.add_mod_right, Nat.mod_eq_of_lt (by omega)]

/-! ## Receive-window accounting -/

/-- C19, refuted as stated: an ESTABLISHED socket with `rcv_nxt = 100` and
`rcv_wnd = 0` admits the one-byte probe `seq = 100, seq_end = 101` and runs the
accounting step with a payload length (1) above `rcv_wnd` (0); with a 16-bit
window the subtraction wraps to 65535. -/
theorem rcv_wnd_wraps_on_probe :
    is_tcp_seq_valid
        { sock_zero with state := tcp_state.TCP_ESTABLISHED, rcv_nxt := 100, rcv_wnd := 0,
                         snd_wnd := 500 }
        { cb_zero with seq := 100, seq_end := 101, flags := TCP_ACK, rwnd := 500,
                       payload := [7], pl_len := 1 } = 1 ∧
    tcp_process env_u16
        (world_one { sock_zero with state := tcp_state.TCP_ESTABLISHED, rcv_nxt := 100,
                                    rcv_wnd := 0, snd_wnd := 500 }) 0
        { cb_zero with seq := 100, seq_end := 101, flags := TCP_ACK, rwnd := 500,
                       payload := [7], pl_len := 1 }
      = some
        { socks := [{ sock_zero with state := tcp_state.TCP_ESTABLISHED, rcv_nxt := 100,
                                     rcv_wnd := 65535, snd_wnd := 500, rcv_buf := [7] }],
          trace := [Event.wake_up 0 wait_cond.wait_recv] } := by
  decide

/-- The result of `sub_mod` is the difference modulo `m`. -/
theorem sub_mod_congr (m a b : Nat) (hm : 0 < m) :
    sub_mod m a b < m ∧ (sub_mod m a b + b) % m = a % m := by
  unfold sub_mod
  refine ⟨Nat.mod_lt _ hm, ?_⟩
  have hlt : b % m < m := Nat.mod_lt b hm
  have hdm : m * (b / m) + b % m = b := Nat.div_add_mod b m
  have e : a + (m - b % m) + b = a + m + m * (b / m) := by omega
  rw [Nat.mod_add_mod, e, Nat.add_mul_mod_self_left, Nat.add_mod_right]

/-- C19, amended: for a socket in ESTABLISHED or CLOSE_WAIT and every admitted
segment without RST and SYN and with ACK or FIN, whatever its payload length,
the new `rcv_wnd` is the old one minus the payload length, reduced modulo the
width of the field: it is below the modulus and congruent to the difference.
The new `rcv_wnd` plus the payload length is the old `rcv_wnd` (no wrap) when
the payload length is at most `rcv_wnd` and `rcv_wnd` fits its type, and only
when the payload length is at most `rcv_wnd`. -/
theorem rcv_wnd_accounting (env : Env) (w : World) (tsk : Nat) (s : tcp_sock) (cb : tcp_cb)
    (h : w.socks[tsk]? = some s)
    (hst : s.state = tcp_state.TCP_ESTABLISHED ∨ s.state = tcp_state.TCP_CLOSE_WAIT)
    (hv : is_tcp_seq_valid s cb = 1)
    (hr : cb.flags &&& TCP_RST = 0) (hs : cb.flags &&& TCP_SYN = 0)
    (ha : ¬ (cb.flags &&& TCP_ACK = 0 ∧ cb.flags &&& TCP_FIN = 0)) :
    ∃ w' s', tcp_process env w tsk cb = some w' ∧ w'.socks[tsk]? = some s' ∧
      s'.rcv_wnd = sub_mod env.wnd_mod s.rcv_wnd cb.pl_len ∧
      (0 < env.wnd_mod →
        s'.rcv_wnd < env.wnd_mod ∧
        (s'.rcv_wnd + cb.pl_len) % env.wnd_mod = s.rcv_wnd % env.wnd_mod) ∧
      (s.rcv_wnd < env.wnd_mod → cb.pl_len ≤ s.rcv_wnd →
        s'.rcv_wnd + cb.pl_len = s.rcv_wnd) ∧
      (s'.rcv_wnd + cb.pl_len = s.rcv_wnd → cb.pl_len ≤ s.rcv_wnd) := by
  have hi : tsk < w.socks.length := (List.getElem?_eq_some.mp h).1
  have hsub : s.rcv_wnd < env.wnd_mod → cb.pl_len ≤ s.rcv_wnd →
      sub_mod env.wnd_mod s.rcv_wnd cb.pl_len + cb.pl_len = s.rcv_wnd := by
    intro hw hp
    rw [sub_mod_of_le _ _ _ hp hw]
    omega
  have hcg : 0 < env.wnd_mod →
      sub_mod env.wnd_mod s.rcv_wnd cb.pl_len < env.wnd_mod ∧
      (sub_mod env.wnd_mod s.rcv_wnd cb.pl_len + cb.pl_len) % env.wnd_mod
        = s.rcv_wnd % env.wnd_mod :=
    fun hm => sub_mod_congr _ _ _ hm
  have hle : sub_mod env.wnd_mod s.rcv_wnd cb.pl_len + cb.pl_len = s.rcv_wnd →
      cb.pl_len ≤ s.rcv_wnd := by
    intro he
    omega
  rw [tcp_process_eq_data env w tsk s cb h hst hv hr hs ha,
    tcp_process_data_eq env w tsk s cb h]
  split_ifs
  · exact ⟨_, _, rfl, List.getElem?_set_self hi, rfl, hcg, hsub, hle⟩
  · exact ⟨_, _, rfl, List.getElem?_set_self hi, rfl, hcg, hsub, hle⟩
  · exact ⟨_, _, rfl, List.getElem?_set_self hi, rfl, hcg, hsub, hle⟩

theorem rcv_wnd_accounting_witness :
    ∃ w' s',
      tcp_process env_u16
        (world_one { sock_zero with state := tcp_state.TCP_ESTABLISHED, rcv_nxt := 100,
                                    rcv_wnd := 10 }) 0
        { cb_zero with seq := 100, seq_end := 150, flags := TCP_ACK ||| 8, pl_len := 50 }
          = some w' ∧
      w'.socks[0]? = some s' ∧
      s'.rcv_wnd = sub_mod 65536 10 50 ∧
      (0 < 65536 → s'.rcv_wnd < 65536 ∧ (s'.rcv_wnd + 50) % 65536 = 10 % 65536) ∧
      (10 < 65536 → 50 ≤ 10 → s'.rcv_wnd + 50 = 10) ∧
      (s'.rcv_wnd + 50 = 10 → 50 ≤ 10) :=
  rcv_wnd_accounting env_u16
    (world_one { sock_zero with state := tcp_state.TCP_ESTABLISHED, rcv_nxt := 100,
                                rcv_wnd := 10 }) 0
    { sock_zero with state := tcp_state.TCP_ESTABLISHED, rcv_nxt := 100, rcv_wnd := 10 }
    { cb_zero with seq := 100, seq_end := 150, flags := TCP_ACK ||| 8, pl_len := 50 }
    rfl (Or.inl rfl) (by decide) (by decide) (by decide) (by decide)

/-! ## Monotonicity of `rcv_nxt` -/

/-- C14: for a socket in a state other than CLOSED, LISTEN and SYN_SENT,
`tcp_process` returns a world (outside SYN_RECV always), and in every world it
returns `rcv_nxt` of the socket is at least its old value: it is either
unchanged, or equal to `seq_end` of a segment that the validator admitted, for
which `rcv_nxt ≤ seq_end` holds. -/
theorem rcv_nxt_only_advances (env : Env) (w : World) (tsk : Nat) (s : tcp_sock)
    (cb : tcp_cb) (h : w.socks[tsk]? = some s)
    (h1 : s.state ≠ tcp_state.TCP_CLOSED) (h2 : s.state ≠ tcp_state.TCP_LISTEN)
    (h3 : s.state ≠ tcp_state.TCP_SYN_SENT) :
    (s.state ≠ tcp_state.TCP_SYN_RECV → ∃ w', tcp_process env w tsk cb = some w') ∧
    ∀ w', tcp_process env w tsk cb = some w' →
      ∃ s', w'.socks[tsk]? = some s' ∧ s.rcv_nxt ≤ s'.rcv_nxt ∧
        (s'.rcv_nxt = s.rcv_nxt ∨
          (s'.rcv_nxt = cb.seq_end ∧ is_tcp_seq_valid s cb = 1 ∧
            s.rcv_nxt ≤ cb.seq_end)) := by
  have hi : tsk < w.socks.length := (List.getElem?_eq_some.mp h).1
  rw [tcp_process_eq_shared env w tsk s cb h h1 h2 h3]
  refine ⟨fun hst => tcp_process_shared_total env w tsk s cb hst, ?_⟩
  intro w' hres
  rcases tcp_process_shared_cases env w tsk s cb w' hres with
    hw | hw | ⟨hv, hw | hw | hw | hw | hw⟩
  · subst hw
    exact ⟨s, h, le_refl _, Or.inl rfl⟩
  · subst hw
    exact ⟨s, h, le_refl _, Or.inl rfl⟩
  · obtain ⟨s', _, hs', hn, _, _⟩ := tcp_state_syn_recv_frame w tsk s cb w' h hw.2
    exact ⟨s', hs', by rw [hn], Or.inl hn⟩
  · subst hw
    refine ⟨{ s with state := tcp_state.TCP_FIN_WAIT_2 }, ?_, le_refl _, Or.inl rfl⟩
    simp [tcp_set_state, World.get_modify_self _ h]
  · subst hw
    refine ⟨{ s with state := tcp_state.TCP_CLOSED }, ?_, le_refl _, Or.inl rfl⟩
    simp [tcp_unhash, tcp_set_state, World.get_modify_self _ h]
  · subst hw
    have hle := is_tcp_seq_valid_le s cb hv
    refine ⟨{ s with rcv_nxt := cb.seq_end }, ?_, hle, Or.inr ⟨rfl, hv, hle⟩⟩
    simp [tcp_set_timewait_timer, tcp_send_control_packet, World.get_modify_self _ h]
  · subst hw
    have hle := is_tcp_seq_valid_le s cb hv
    rw [tcp_process_data_eq env w tsk s cb h]
    split_ifs
    · exact ⟨_, List.getElem?_set_self hi, hle, Or.inr ⟨rfl, hv, hle⟩⟩
    · exact ⟨_, List.getElem?_set_self hi, hle, Or.inr ⟨rfl, hv, hle⟩⟩
    · exact ⟨_, List.getElem?_set_self hi, le_refl _, Or.inl rfl⟩

theorem rcv_nxt_only_advances_witness :
    ∃ s', ({ socks := [{ sock_zero with state := tcp_state.TCP_FIN_WAIT_2, rcv_nxt := 101,
                                        rcv_wnd := 10 }],
             trace := [Event.send_control 0 TCP_ACK, Event.set_timewait_timer 0] }
            : World).socks[0]? = some s' ∧
      100 ≤ s'.rcv_nxt ∧
      (s'.rcv_nxt = 100 ∨
        (s'.rcv_nxt = 101 ∧
          is_tcp_seq_valid
            { sock_zero with state := tcp_state.TCP_FIN_WAIT_2, rcv_nxt := 100, rcv_wnd := 10 }
            { cb_zero with seq := 100, seq_end := 101, flags := TCP_FIN ||| TCP_ACK } = 1 ∧
          100 ≤ 101)) :=
  (rcv_nxt_only_advances env_u16
    (world_one { sock_zero with state := tcp_state.TCP_FIN_WAIT_2, rcv_nxt := 100,
                                rcv_wnd := 10 }) 0
    { sock_zero with state := tcp_state.TCP_FIN_WAIT_2, rcv_nxt := 100, rcv_wnd := 10 }
    { cb_zero with seq := 100, seq_end := 101, flags := TCP_FIN ||| TCP_ACK }
    rfl (by decide) (by decide) (by decide)).2
    { socks := [{ sock_zero with state := tcp_state.TCP_FIN_WAIT_2, rcv_nxt := 101,
                                 rcv_wnd := 10 }],
      trace := [Event.send_control 0 TCP_ACK, Event.set_timewait_timer 0] }
    (by decide)

/-! ## Data delivery -/

/-- C18, refuted as stated: an ESTABLISHED socket with `rcv_nxt = 100` and
`rcv_wnd = 1000` receives a 10-byte segment with `seq = 150`, flags ACK|PSH; the
validator admits it and the payload is appended to the receive buffer although
`seq` differs from `rcv_nxt`, leaving the bytes 100..149 out. -/
theorem data_appended_out_of_sequence :
    tcp_process env_u16
        (world_one { sock_zero with state := tcp_state.TCP_ESTABLISHED, rcv_nxt := 100,
                                    rcv_wnd := 1000, snd_wnd := 500 }) 0
        { cb_zero with seq := 150, seq_end := 160, flags := TCP_ACK ||| 8, rwnd := 500,
                       payload := [1, 2, 3, 4, 5, 6, 7, 8, 9, 10], pl_len := 10 }
      = some
        { socks := [{ sock_zero with state := tcp_state.TCP_ESTABLISHED, rcv_nxt := 160,
                                     rcv_wnd := 990, snd_wnd := 500,
                                     rcv_buf := [1, 2, 3, 4, 5, 6, 7, 8, 9, 10] }],
          trace := [Event.wake_up 0 wait_cond.wait_recv, Event.send_control 0 TCP_ACK] } := by
  decide

/-- C18, amended: for every socket, `tcp_process` returns a world (outside
SYN_RECV always), and in every world it returns the receive buffer of the socket
is either unchanged, with no wake-up of `wait_recv`, or it is the old buffer
followed by the first `pl_len` bytes of the payload, with `pl_len > 0`, a segment
that the validator admitted (its `seq` is not compared with `rcv_nxt`) and a
wake-up of `wait_recv`; when `pl_len = 0` the buffer is unchanged and `wait_recv`
is not woken. -/
theorem recv_buf_only_appended (env : Env) (w : World) (tsk : Nat) (s : tcp_sock)
    (cb : tcp_cb) (h : w.socks[tsk]? = some s) :
    (s.state ≠ tcp_state.TCP_SYN_RECV → ∃ w', tcp_process env w tsk cb = some w') ∧
    ∀ w', tcp_process env w tsk cb = some w' →
      ∃ s' ev, w'.socks[tsk]? = some s' ∧ w'.trace = w.trace ++ ev ∧
        ((s'.rcv_buf = s.rcv_buf ∧ Event.wake_up tsk wait_cond.wait_recv ∉ ev) ∨
          (0 < cb.pl_len ∧ is_tcp_seq_valid s cb = 1 ∧
            s'.rcv_buf = s.rcv_buf ++ cb.payload.take cb.pl_len ∧
            Event.wake_up tsk wait_cond.wait_recv ∈ ev)) ∧
        (cb.pl_len = 0 →
          s'.rcv_buf = s.rcv_buf ∧ Event.wake_up tsk wait_cond.wait_recv ∉ ev) := by
  have hi : tsk < w.socks.length := (List.getElem?_eq_some.mp h).1
  have key : ∀ (s' : tcp_sock) (ev : List Event), s'.rcv_buf = s.rcv_buf →
      Event.wake_up tsk wait_cond.wait_recv ∉ ev →
      ((s'.rcv_buf = s.rcv_buf ∧ Event.wake_up tsk wait_cond.wait_recv ∉ ev) ∨
          (0 < cb.pl_len ∧ is_tcp_seq_valid s cb = 1 ∧
            s'.rcv_buf = s.rcv_buf ++ cb.payload.take cb.pl_len ∧
            Event.wake_up tsk wait_cond.wait_recv ∈ ev)) ∧
        (cb.pl_len = 0 →
          s'.rcv_buf = s.rcv_buf ∧ Event.wake_up tsk wait_cond.wait_recv ∉ ev) :=
    fun _ _ hb he => ⟨Or.inl ⟨hb, he⟩, fun _ => ⟨hb, he⟩⟩
  by_cases h1 : s.state = tcp_state.TCP_CLOSED
  · have hp : tcp_process env w tsk cb = some (w.emit (Event.send_reset cb)) := by
      unfold tcp_process
      rw [h]
      simp only [h1]
      rfl
    rw [hp]
    refine ⟨fun _ => ⟨_, rfl⟩, ?_⟩
    intro w' hres
    have hw := (Option.some.inj hres).symm
    subst hw
    exact ⟨s, [Event.send_reset cb], h, rfl, key _ _ rfl (by simp)⟩
  by_cases h2 : s.state = tcp_state.TCP_LISTEN
  · rw [tcp_process_eq_listen env w tsk s cb h h2, tcp_state_listen_eq env w tsk s cb h]
    refine ⟨fun _ => ⟨_, rfl⟩, ?_⟩
    intro w' hres
    have hw := (Option.some.inj hres).symm
    subst hw
    refine ⟨{ s with listen_queue := s.listen_queue ++ [w.socks.length] }, _, ?_, rfl,
      key _ _ rfl (by simp)⟩
    simp [List.getElem?_append_left, hi]
  by_cases h3 : s.state = tcp_state.TCP_SYN_SENT
  · have hp : tcp_process env w tsk cb = some (tcp_state_syn_sent w tsk cb) := by
      unfold tcp_process
      rw [h]
      simp only [h3]
    rw [hp]
    refine ⟨fun _ => ⟨_, rfl⟩, ?_⟩
    intro w' hres
    have hw := (Option.some.inj hres).symm
    subst hw
    unfold tcp_state_syn_sent
    by_cases hf : cb.flags ≠ TCP_SYN ||| TCP_ACK
    · rw [if_pos hf]
      exact ⟨s, [Event.send_reset cb], h, rfl, key _ _ rfl (by simp)⟩
    · rw [if_neg hf]
      refine ⟨{ s with rcv_nxt := cb.seq_end, state := tcp_state.TCP_ESTABLISHED },
        [Event.send_control tsk TCP_ACK, Event.set_state tsk tcp_state.TCP_ESTABLISHED,
         Event.wake_up tsk wait_cond.wait_connect], ?_, ?_, key _ _ rfl (by simp)⟩
      · simp [wake_up, tcp_set_state, tcp_send_control_packet, World.get_modify, h]
      · simp [wake_up, tcp_set_state, tcp_send_control_packet]
  rw [tcp_process_eq_shared env w tsk s cb h h1 h2 h3]
  refine ⟨fun hst => tcp_process_shared_total env w tsk s cb hst, ?_⟩
  intro w' hres
  rcases tcp_process_shared_cases env w tsk s cb w' hres with
    hw | hw | ⟨hv, hw | hw | hw | hw | hw⟩
  · subst hw
    exact ⟨s, [], h, (List.append_nil _).symm, key _ _ rfl (by simp)⟩
  · subst hw
    exact ⟨s, [Event.sock_close tsk], h, rfl, key _ _ rfl (by simp)⟩
  · obtain ⟨s', p, hs', _, hb, ht⟩ := tcp_state_syn_recv_frame w tsk s cb w' h hw.2
    exact ⟨s', _, hs', ht, key _ _ hb (by simp)⟩
  · subst hw
    refine ⟨{ s with state := tcp_state.TCP_FIN_WAIT_2 },
      [Event.set_state tsk tcp_state.TCP_FIN_WAIT_2], ?_, ?_, key _ _ rfl (by simp)⟩
    · simp [tcp_set_state, World.get_modify_self _ h]
    · simp [tcp_set_state]
  · subst hw
    refine ⟨{ s with state := tcp_state.TCP_CLOSED },
      [Event.set_state tsk tcp_state.TCP_CLOSED, Event.unhash tsk], ?_, ?_,
      key _ _ rfl (by simp)⟩
    · simp [tcp_unhash, tcp_set_state, World.get_modify_self _ h]
    · simp [tcp_unhash, tcp_set_state]
  · subst hw
    refine ⟨{ s with rcv_nxt := cb.seq_end },
      [Event.send_control tsk TCP_ACK, Event.set_timewait_timer tsk], ?_, ?_,
      key _ _ rfl (by simp)⟩
    · simp [tcp_set_timewait_timer, tcp_send_control_packet, World.get_modify_self _ h]
    · simp [tcp_set_timewait_timer, tcp_send_control_packet]
  · subst hw
    rw [tcp_process_data_eq env w tsk s cb h]
    by_cases hpl : cb.pl_len > 0
    · have hne : cb.pl_len ≠ 0 := by omega
      split_ifs
      · refine ⟨_, _, List.getElem?_set_self hi, List.append_assoc _ _ _, ?_,
          fun h0 => absurd h0 hne⟩
        exact Or.inr ⟨hpl, hv, by simp [data_sock, hpl, write_ring_buffer],
          by simp [data_events, hpl]⟩
      · refine ⟨_, _, List.getElem?_set_self hi, List.append_assoc _ _ _, ?_,
          fun h0 => absurd h0 hne⟩
        exact Or.inr ⟨hpl, hv, by simp [data_sock, hpl, write_ring_buffer],
          by simp [data_events, hpl]⟩
      · refine ⟨_, _, List.getElem?_set_self hi, rfl, ?_, fun h0 => absurd h0 hne⟩
        exact Or.inr ⟨hpl, hv, by simp [data_sock, hpl, write_ring_buffer],
          by simp [data_events, hpl]⟩
    · have hb : (data_sock env s cb).rcv_buf = s.rcv_buf := by simp [data_sock, hpl]
      have he : Event.wake_up tsk wait_cond.wait_recv ∉ data_events tsk s cb := by
        unfold data_events
        rw [if_neg hpl]
        split <;> simp
      split_ifs
      · exact ⟨_, _, List.getElem?_set_self hi, List.append_assoc _ _ _,
          key _ _ hb (by simp [he])⟩
      · exact ⟨_, _, List.getElem?_set_self hi, List.append_assoc _ _ _,
          key _ _ hb (by simp [he])⟩
      · exact ⟨_, _, List.getElem?_set_self hi, rfl, key _ _ hb he⟩

theorem recv_buf_only_appended_witness :
    ∃ s' ev,
      ({ socks := [{ sock_est with rcv_nxt := 110, rcv_wnd := 990,
                                   rcv_buf := [1, 2, 3, 4, 5, 6, 7, 8, 9, 10] }],
         trace := [Event.wake_up 0 wait_cond.wait_recv, Event.send_control 0 TCP_ACK] }
        : World).socks[0]? = some s' ∧
      ({ socks := [{ sock_est with rcv_nxt := 110, rcv_wnd := 990,
                                   rcv_buf := [1, 2, 3, 4, 5, 6, 7, 8, 9, 10] }],
         trace := [Event.wake_up 0 wait_cond.wait_recv, Event.send_control 0 TCP_ACK] }
        : World).trace = (world_one sock_est).trace ++ ev ∧
      ((s'.rcv_buf = sock_est.rcv_buf ∧ Event.wake_up 0 wait_cond.wait_recv ∉ ev) ∨
        (0 < cb_data.pl_len ∧ is_tcp_seq_valid sock_est cb_data = 1 ∧
          s'.rcv_buf = sock_est.rcv_buf ++ cb_data.payload.take cb_data.pl_len ∧
          Event.wake_up 0 wait_cond.wait_recv ∈ ev)) ∧
      (cb_data.pl_len = 0 →
        s'.rcv_buf = sock_est.rcv_buf ∧ Event.wake_up 0 wait_cond.wait_recv ∉ ev) :=
  (recv_buf_only_appended env_u16 (world_one sock_est) 0 sock_est cb_data rfl).2
    { socks := [{ sock_est with rcv_nxt := 110, rcv_wnd := 990,
                                rcv_buf := [1, 2, 3, 4, 5, 6, 7, 8, 9, 10] }],
      trace := [Event.wake_up 0 wait_cond.wait_recv, Event.send_control 0 TCP_ACK] }
    (by decide)

end TcpIn
